import Mathlib

/-!
Shallow embedding of the simulation core of `jamies-eagle-game`
(`src/game.js` together with the audio controller state of `src/audio.js`).

Positions and speeds are modelled as rationals.  The fixed frame step of
`animate` is the literal `0.016` of `game.js` (written `2/125`).  The two
transcendental library calls (`Math.sqrt` inside the fan push and `Math.sin`
inside the log oscillation) are modelled parametrically: every state-stepping
function receives the functions `sq` (square root) and `sn` (sine) as
arguments, and theorems that need facts about the square root assume only
properties that the real square root has (`SqrtSpec`).  `Math.random()` draws
are modelled as pre-drawn rational values handed to the tick in a `Rnd`
record, one field per call site.

Purely visual effects that never feed back into simulation state (camera
pose, banking rotation, wing flap, particle meshes of an explosion, render
calls, DOM/UI text) are not modelled; every field read by the simulation is.
The backward `for` loops of `updateObjects`/`updateExplosions` with `splice`
are modelled as structural recursion over the object list, which is
equivalent because each iteration touches only the current element.
-/

/-- Configuration constant from `CONFIG` in `game.js`. -/
def PLAYER_SPEED_BASE : ℚ := 50

/-- Configuration constant from `CONFIG` in `game.js`. -/
def PLAYER_SPEED_MAX : ℚ := 100

/-- Configuration constant from `CONFIG` in `game.js`. -/
def PLAYER_ACCEL : ℚ := 50

/-- Configuration constant from `CONFIG` in `game.js`. -/
def PLAYER_TURN_SPEED : ℚ := 40

/-- Configuration constant from `CONFIG` in `game.js`. -/
def HOOP_RADIUS : ℚ := 8

/-- Configuration constant from `CONFIG` in `game.js`. -/
def SPAWN_DISTANCE : ℚ := 400

/-- Configuration constant from `CONFIG` in `game.js`. -/
def REMOVE_DISTANCE : ℚ := 50

/-- Configuration constant from `CONFIG` in `game.js`. -/
def HOOP_SPAWN_INTERVAL : ℚ := 150

/-- The fixed frame step `const dt = 0.016` of `animate` in `game.js`. -/
def frameDt : ℚ := 2/125

/-- Tag of a track object (`obj.type` strings in `game.js`). -/
inductive ObjType where
  | hoop
  | wall
  | fan
  | log
deriving DecidableEq

/-- One element of the `objects` array of `game.js`.  Fields that only some
variants use carry defaults, matching the ad-hoc records the source builds
(`missed` starts absent, i.e. falsy).  `color` is the material color hex,
`rotZ` the fan mesh spin. -/
structure Obj where
  type : ObjType
  x : ℚ
  y : ℚ
  z : ℚ
  passed : Bool := false
  missed : Bool := false
  active : Bool := true
  moving : Bool := false
  speed : ℚ := 0
  force : ℚ := 0
  swinging : Bool := false
  angle : ℚ := 0
  rotZ : ℚ := 0
  color : ℕ := 0
deriving DecidableEq

/-- One entry of the `explosions` array: origin of the burst and remaining
life in seconds (the 20 particle meshes are render-only). -/
structure Explosion where
  x : ℚ
  y : ℚ
  z : ℚ
  life : ℚ
deriving DecidableEq

/-- The mutable simulation state: the `state` literal of `game.js`, the
eagle's pose, the `objects` and `explosions` arrays, the audio controller
fields read or written by the game (`intensity`, `tempo`, `isPlaying`), and
counters of the one-shot audio cues (`explosionsCreated` counts
`createExplosion` calls). -/
structure GameState where
  isRunning : Bool
  score : ℕ
  misses : ℕ
  gameOver : Bool
  isPaused : Bool
  wasAutoPausedByVisibility : Bool
  speed : ℚ
  distanceTraveled : ℚ
  lastSpawnZ : ℚ
  eagleX : ℚ
  eagleY : ℚ
  eagleZ : ℚ
  eagleVisible : Bool
  objects : List Obj
  explosions : List Explosion
  explosionsCreated : ℕ
  intensity : ℚ
  tempo : ℚ
  musicPlaying : Bool
  collectSoundPlays : ℕ
  crashSoundPlays : ℕ
  gameOverMusicPlays : ℕ
deriving DecidableEq

/-- Input snapshot for one frame: the keyboard flags and on-screen control
flags read at the top of `animate`. -/
structure Input where
  keyLeft : Bool
  keyRight : Bool
  keyUp : Bool
  keyDown : Bool
  keySpace : Bool
  dpadUp : Bool
  dpadDown : Bool
  dpadLeft : Bool
  dpadRight : Bool
  accelBtn : Bool
deriving DecidableEq

/-- Pre-drawn `Math.random()` values for one frame, one field per call site
in `spawnObjects` / `spawnWall` / `spawnLog`. -/
structure Rnd where
  rx : ℚ
  ry : ℚ
  rObs : ℚ
  rType : ℚ
  rWallOff : ℚ
  rWallMoving : ℚ
  rWallSpeed : ℚ
  rLogOff : ℚ
deriving DecidableEq

/-- All eight draws lie in `[0,1)`, as `Math.random()` guarantees. -/
def Rnd.Valid (r : Rnd) : Prop :=
  0 ≤ r.rx ∧ r.rx < 1 ∧ 0 ≤ r.ry ∧ r.ry < 1 ∧ 0 ≤ r.rObs ∧ r.rObs < 1 ∧
  0 ≤ r.rType ∧ r.rType < 1 ∧ 0 ≤ r.rWallOff ∧ r.rWallOff < 1 ∧
  0 ≤ r.rWallMoving ∧ r.rWallMoving < 1 ∧ 0 ≤ r.rWallSpeed ∧ r.rWallSpeed < 1 ∧
  0 ≤ r.rLogOff ∧ r.rLogOff < 1

instance (r : Rnd) : Decidable r.Valid := by
  unfold Rnd.Valid; infer_instance

/-- Properties of the real square root that the development relies on:
nonnegative, and its square never exceeds the (nonnegative part of the)
argument.  `Math.sqrt` restricted to the nonnegative rationals satisfies
this specification. -/
def SqrtSpec (sq : ℚ → ℚ) : Prop :=
  ∀ q : ℚ, 0 ≤ sq q ∧ sq q * sq q ≤ max q 0

/-- `AudioController.setIntensity` (`audio.js`): clamp the level into
`[0,1]` and derive the beat-clock tempo `100 + intensity·60`. -/
def setIntensity (level : ℚ) (s : GameState) : GameState :=
  let i := max 0 (min 1 level)
  { s with intensity := i, tempo := 100 + i * 60 }

/-- Modelled from the spec: `audioCtrl.pauseMusic()` is called by
`togglePause` in `game.js` but its body is not among the source files
(`src/audio.js` only defines `startMusic`/`stopMusic`); per §4.5 of the spec,
entering `Paused` pauses the music. -/
def pauseMusic (s : GameState) : GameState :=
  { s with musicPlaying := false }

/-- Modelled from the spec: `audioCtrl.resumeMusic()` is called by
`startGame` and `togglePause` in `game.js` but its body is not among the
source files; per §4.5 of the spec, leaving `Paused` (or starting a run)
resumes the music. -/
def resumeMusic (s : GameState) : GameState :=
  { s with musicPlaying := true }

/-- `createExplosion` (`game.js`): append one particle system with 2 seconds
of life at the given origin; the ghost counter `explosionsCreated` records
that one call happened. -/
def createExplosion (px py pz : ℚ) (s : GameState) : GameState :=
  { s with explosions := s.explosions ++ [⟨px, py, pz, 2⟩],
           explosionsCreated := s.explosionsCreated + 1 }

/-- `gameOver` (`game.js`): guarded against re-entry; sets the terminal
flags, spawns one explosion at the eagle's position, hides the eagle and
plays the crash cue and the game-over music (`playGameOverMusic` in
`audio.js` also overwrites `intensity := 1` and `tempo := 60`). -/
def gameOver (s : GameState) : GameState :=
  if s.gameOver then s
  else
    let s1 := { s with gameOver := true, isRunning := false }
    let s2 := createExplosion s1.eagleX s1.eagleY s1.eagleZ s1
    let s3 := { s2 with eagleVisible := false,
                        crashSoundPlays := s2.crashSoundPlays + 1 }
    { s3 with gameOverMusicPlays := s3.gameOverMusicPlays + 1,
              intensity := 1, tempo := 60 }

/-- `togglePause` (`game.js`): a no-op unless running and not game-over;
otherwise flips `isPaused` and pauses or resumes the music. -/
def togglePause (s : GameState) : GameState :=
  if s.isRunning = false ∨ s.gameOver then s
  else
    let s1 := { s with isPaused := !s.isPaused }
    if s1.isPaused then pauseMusic s1 else resumeMusic s1

/-- `handleVisibilityChange` (`game.js`); `hidden = true` models
`document.visibilityState === 'hidden'`. -/
def handleVisibilityChange (hidden : Bool) (s : GameState) : GameState :=
  if hidden then
    if s.isRunning ∧ s.isPaused = false ∧ s.gameOver = false then
      let s1 := togglePause s
      { s1 with wasAutoPausedByVisibility := true }
    else s
  else
    if s.wasAutoPausedByVisibility ∧ s.isPaused ∧ s.isRunning then
      let s1 := togglePause s
      { s1 with wasAutoPausedByVisibility := false }
    else s

/-- `spawnHoop` (`game.js`). -/
def spawnHoop (x y z : ℚ) : Obj :=
  { type := .hoop, x := x, y := y, z := z, passed := false, active := true,
    color := 0xFFD700 }

/-- `spawnWall` (`game.js`): lateral jitter, placed 20 units beyond the
hoop, randomly moving with a random signed speed. -/
def spawnWall (r : Rnd) (targetX targetY z : ℚ) : Obj :=
  { type := .wall, x := targetX + (r.rWallOff - 1/2) * 10, y := targetY,
    z := z - 20, active := true, moving := decide (1/2 < r.rWallMoving),
    speed := (r.rWallSpeed - 1/2) * 20, color := 0xA52A2A }

/-- `spawnFan` (`game.js`): offset 10 right of the hoop, 10 nearer, with a
constant leftward push force of −30. -/
def spawnFan (targetX targetY z : ℚ) : Obj :=
  { type := .fan, x := targetX + 10, y := targetY, z := z - 10,
    active := true, force := -30, color := 0x88CCFF }

/-- `spawnLog` (`game.js`): random vertical jitter, 15 units nearer,
swinging from phase 0. -/
def spawnLog (r : Rnd) (targetX targetY z : ℚ) : Obj :=
  { type := .log, x := targetX, y := targetY + (r.rLogOff * 10 - 5),
    z := z - 15, active := true, swinging := true, angle := 0,
    color := 0x5D4037 }

/-- The obstacle probability `Math.min(0.2 + score*0.05, 0.8)` of
`spawnObjects`. -/
def obstacleChance (score : ℕ) : ℚ :=
  min (1/5 + (score : ℚ) * (1/20)) (4/5)

/-- The obstacle-type draw of `spawnObjects` (`game.js`): wall below 0.33,
fan below 0.66, log otherwise. -/
def spawnedObstacle (r : Rnd) (x y z : ℚ) : Obj :=
  if r.rType < 33/100 then spawnWall r x y z
  else if r.rType < 66/100 then spawnFan x y z
  else spawnLog r x y z

/-- `spawnObjects` (`game.js`): fire when the spawn horizon has advanced a
full `HOOP_SPAWN_INTERVAL`; place one hoop at a random lateral/vertical
position, then with probability `obstacleChance` one obstacle whose type is
drawn from the 0.33/0.33/0.34 split. -/
def spawnObjects (r : Rnd) (playerZ : ℚ) (s : GameState) : GameState :=
  let spawnZ := playerZ - SPAWN_DISTANCE
  if HOOP_SPAWN_INTERVAL ≤ s.lastSpawnZ - spawnZ then
    let s1 := { s with lastSpawnZ := spawnZ }
    let x := (r.rx - 1/2) * 80
    let y := r.ry * 30 + 5
    let s2 := { s1 with objects := s1.objects ++ [spawnHoop x y spawnZ] }
    if r.rObs < obstacleChance s2.score then
      { s2 with objects := s2.objects ++ [spawnedObstacle r x y spawnZ] }
    else s2
  else s

/-- Body of the miss-detection loop of `updateObjects` (`game.js`): a hoop
that is active, neither passed nor missed, and more than 1 unit behind the
player is marked missed and deactivated, `misses` is bumped, the intensity
is recomputed, and at 3 misses `gameOver` fires. -/
def missStep (s : GameState) (o : Obj) : GameState × Obj :=
  if o.type = ObjType.hoop ∧ o.active ∧ o.passed = false ∧ o.missed = false ∧
      s.eagleZ + 1 < o.z then
    let o1 := { o with missed := true, active := false, color := 0xFF0000 }
    let s1 := { s with misses := s.misses + 1 }
    let s2 := setIntensity ((s1.misses : ℚ) / 3 + (s1.score : ℚ) * (1/20)) s1
    let s3 := if 3 ≤ s2.misses then gameOver s2 else s2
    (s3, o1)
  else (s, o)

/-- The miss-detection loop itself, threading the state left to right
through the object list. -/
def missLoopAux : GameState → List Obj → GameState × List Obj
  | s, [] => (s, [])
  | s, o :: rest =>
    let p := missStep s o
    let q := missLoopAux p.1 rest
    (q.1, p.2 :: q.2)

/-- Per-object behaviour of the second loop of `updateObjects`: moving walls
drift and bounce relative to the player, swinging logs accumulate phase and
drift vertically, fans spin. -/
def behaviorStep (sn : ℚ → ℚ) (px : ℚ) (o : Obj) : Obj :=
  if o.type = ObjType.wall ∧ o.moving then
    let o1 := { o with x := o.x + o.speed * frameDt }
    if 50 < |o1.x - px| then { o1 with speed := o1.speed * (-1) } else o1
  else if o.type = ObjType.log ∧ o.swinging then
    let o1 := { o with angle := o.angle + frameDt * 2 }
    { o1 with y := o1.y + sn o1.angle * (1/10) }
  else if o.type = ObjType.fan then
    { o with rotZ := o.rotZ + 10 * frameDt }
  else o

/-- The behaviour-and-cleanup loop of `updateObjects`: update each object,
then drop it if it has scrolled more than `REMOVE_DISTANCE` behind the
player. -/
def updateLoop (sn : ℚ → ℚ) (px pz : ℚ) : List Obj → List Obj
  | [] => []
  | o :: rest =>
    let o1 := behaviorStep sn px o
    let rest1 := updateLoop sn px pz rest
    if pz + REMOVE_DISTANCE < o1.z then rest1 else o1 :: rest1

/-- `updateObjects` (`game.js`): miss detection first, then behaviour update
and cleanup. -/
def updateObjects (sn : ℚ → ℚ) (s : GameState) : GameState :=
  let p := missLoopAux s s.objects
  let s1 := { p.1 with objects := p.2 }
  { s1 with objects := updateLoop sn s1.eagleX s1.eagleZ s1.objects }

/-- Body of the `checkCollisions` loop of `game.js` for one object: inactive
objects are skipped; within the 5-unit longitudinal window, hoops score when
inside the radius and within 1 unit of the hoop plane, walls and logs use
rectangular footprints that trigger `gameOver`, and fans within squared
distance 100 push the player laterally. -/
def collideStep (sq : ℚ → ℚ) (s : GameState) (o : Obj) : GameState × Obj :=
  if o.active = false then (s, o)
  else
    let dz := o.z - s.eagleZ
    if |dz| < 5 then
      let dx := o.x - s.eagleX
      let dy := o.y - s.eagleY
      let distSq := dx * dx + dy * dy
      match o.type with
      | .hoop =>
        if distSq < HOOP_RADIUS * HOOP_RADIUS then
          if |dz| < 1 then
            ({ s with score := s.score + 1,
                      collectSoundPlays := s.collectSoundPlays + 1,
                      speed := min (s.speed + 1) PLAYER_SPEED_MAX },
             { o with passed := true, active := false, color := 0x00FF00 })
          else (s, o)
        else (s, o)
      | .wall =>
        if |dx| < 10 ∧ |dy| < 15/2 then (gameOver s, o) else (s, o)
      | .log =>
        if |dx| < 15 ∧ |dy| < 2 then (gameOver s, o) else (s, o)
      | .fan =>
        if distSq < 100 then
          ({ s with eagleX := s.eagleX + o.force * frameDt * (1 - sq distSq / 10) }, o)
        else (s, o)
    else (s, o)

/-- The `checkCollisions` loop, threading the state left to right. -/
def checkLoopAux (sq : ℚ → ℚ) : GameState → List Obj → GameState × List Obj
  | s, [] => (s, [])
  | s, o :: rest =>
    let p := collideStep sq s o
    let q := checkLoopAux sq p.1 rest
    (q.1, p.2 :: q.2)

/-- `checkCollisions` (`game.js`). -/
def checkCollisions (sq : ℚ → ℚ) (s : GameState) : GameState :=
  let p := checkLoopAux sq s s.objects
  { p.1 with objects := p.2 }

/-- `updateExplosions` (`game.js`): age every burst by one frame and drop
the expired ones (particle motion is render-only). -/
def updateExplosions (s : GameState) : GameState :=
  let aged := s.explosions.map fun e => { e with life := e.life - frameDt }
  { s with explosions := aged.filter fun e => 0 < e.life }

/-- Input-movement and clamp portion of `animate` (`game.js`): directional
intents move the eagle (D-pad input at half turn speed), then the position
is clamped to `y ∈ [1,50]`, `x ∈ [-100,100]`. -/
def applyInput (inp : Input) (s : GameState) : GameState :=
  let moveLeft := inp.keyLeft || inp.dpadLeft
  let moveRight := inp.keyRight || inp.dpadRight
  let moveUp := inp.keyUp || inp.dpadUp
  let moveDown := inp.keyDown || inp.dpadDown
  let currentTurnSpeed :=
    if inp.dpadUp || inp.dpadDown || inp.dpadLeft || inp.dpadRight then
      PLAYER_TURN_SPEED * (1/2)
    else PLAYER_TURN_SPEED
  let s1 := if moveUp then { s with eagleY := s.eagleY + currentTurnSpeed * frameDt * (1/2) } else s
  let s2 := if moveDown then { s1 with eagleY := s1.eagleY - currentTurnSpeed * frameDt * (1/2) } else s1
  let s3 := if moveLeft then { s2 with eagleX := s2.eagleX - currentTurnSpeed * frameDt } else s2
  let s4 := if moveRight then { s3 with eagleX := s3.eagleX + currentTurnSpeed * frameDt } else s3
  { s4 with eagleY := max 1 (min s4.eagleY 50),
            eagleX := max (-100) (min s4.eagleX 100) }

/-- Forward-movement portion of `animate`: `currentSpeed` is the cruise
speed plus a flat `PLAYER_ACCEL` boost while accelerating; the eagle's
longitudinal position decreases by `currentSpeed·dt`. -/
def applyMove (inp : Input) (s : GameState) : GameState :=
  let accelerate := inp.keySpace || inp.accelBtn
  let currentSpeed := s.speed + (if accelerate then PLAYER_ACCEL else 0)
  let moveDist := currentSpeed * frameDt
  { s with eagleZ := s.eagleZ - moveDist,
           distanceTraveled := s.distanceTraveled + moveDist }

/-- `animate` (`game.js`), one simulation tick: a paused frame does nothing;
otherwise explosions age, and if the game is running the frame applies
input and clamp, forward movement, spawning, object update and collision in
that order.  Banking, wing flap, camera follow and rendering are
visual-only and not part of the state. -/
def animate (sq sn : ℚ → ℚ) (inp : Input) (r : Rnd) (s : GameState) : GameState :=
  if s.isPaused then s
  else
    let s1 := updateExplosions s
    if s1.isRunning = false then s1
    else
      let s2 := applyMove inp (applyInput inp s1)
      let s3 := spawnObjects r s2.eagleZ s2
      let s4 := updateObjects sn s3
      checkCollisions sq s4

/-- `resetGame` (`game.js`). -/
def resetGame (s : GameState) : GameState :=
  let s1 := { s with score := 0, misses := 0, gameOver := false,
                     distanceTraveled := 0, lastSpawnZ := 0,
                     speed := PLAYER_SPEED_BASE }
  let s2 := setIntensity 0 s1
  { s2 with eagleX := 0, eagleY := 0, eagleZ := 0,
            objects := [], explosions := [], eagleVisible := true }

/-- `startGame` (`game.js`): reset, mark running, resume the music.
`restartGame` simply calls this. -/
def startGame (s : GameState) : GameState :=
  let s1 := resetGame s
  let s2 := { s1 with isRunning := true }
  resumeMusic s2

/-- The module-level `state` literal of `game.js` plus the initial eagle
pose, empty collections and the `AudioController` constructor fields. -/
def initialState : GameState :=
  { isRunning := false, score := 0, misses := 0, gameOver := false,
    isPaused := false, wasAutoPausedByVisibility := false,
    speed := PLAYER_SPEED_BASE, distanceTraveled := 0, lastSpawnZ := 0,
    eagleX := 0, eagleY := 0, eagleZ := 0, eagleVisible := true,
    objects := [], explosions := [], explosionsCreated := 0,
    intensity := 0, tempo := 100, musicPlaying := false,
    collectSoundPlays := 0, crashSoundPlays := 0, gameOverMusicPlays := 0 }

/-- External events that mutate the simulation state. -/
inductive Ev where
  | tick (sq sn : ℚ → ℚ) (inp : Input) (r : Rnd) (hr : r.Valid)
  | start
  | pauseKey
  | visibility (hidden : Bool)

/-- Effect of one event. -/
def stepEv : Ev → GameState → GameState
  | .tick sq sn inp r _, s => animate sq sn inp r s
  | .start, s => startGame s
  | .pauseKey, s => togglePause s
  | .visibility h, s => handleVisibilityChange h s

/-- States reachable from the initial state by any event sequence. -/
inductive Reachable : GameState → Prop
  | init : Reachable initialState
  | next (e : Ev) {s : GameState} : Reachable s → Reachable (stepEv e s)

/-- A square-root stand-in that satisfies `SqrtSpec`; used to instantiate
witnesses and counterexamples at inputs where the real square root takes
the same value (the concrete pushes below evaluate at `distSq = 0`, where
every `SqrtSpec` function returns 0). -/
def sqZero : ℚ → ℚ := fun _ => 0

/-- A sine stand-in for concrete evaluations (`sin` only moves logs). -/
def snZero : ℚ → ℚ := fun _ => 0

/-- The idle input snapshot: no key or on-screen control active. -/
def inp0 : Input :=
  { keyLeft := false, keyRight := false, keyUp := false, keyDown := false,
    keySpace := false, dpadUp := false, dpadDown := false, dpadLeft := false,
    dpadRight := false, accelBtn := false }

/-- A valid random draw (every `Math.random()` result fixed to 0). -/
def rnd0 : Rnd :=
  { rx := 0, ry := 0, rObs := 0, rType := 0, rWallOff := 0, rWallMoving := 0,
    rWallSpeed := 0, rLogOff := 0 }

/-- A mid-air running state used by concrete scenarios: running, unpaused,
eagle at `(0, 10, 0)` at base speed, spawn clock parked so a scenario tick
does not fire the spawner. -/
def runState : GameState :=
  { initialState with
    isRunning := true
    eagleY := 10
    lastSpawnZ := -400 }

/-- A fan parked exactly at the clamped left border, level with the eagle
and on the plane the eagle reaches after one frame of base-speed travel. -/
def borderFan : Obj :=
  { type := .fan, x := -100, y := 10, z := -4/5, force := -30 }

/-- State for the C1 counterexample: eagle pinned at `x = -100` with
`borderFan` in range. -/
def c1State : GameState :=
  { runState with
    eagleX := -100
    objects := [borderFan] }

/-- A fan object is "spawn-shaped" when its push force is the constant −30
that `spawnFan` installs and it sits no further left than `x = −30`, the
leftmost lateral position `spawnFan` can produce (hoop `x ≥ −40` plus the
fixed offset 10); non-fans satisfy this vacuously. -/
def FanOK (o : Obj) : Prop :=
  o.type = ObjType.fan → o.force = -30 ∧ -30 ≤ o.x

/-- Per-hoop consistency: each of the `passed`/`missed` flags forces the
object inactive, and the two flags are never both set. -/
def HoopConsistent (o : Obj) : Prop :=
  (o.passed = true → o.active = false) ∧
  (o.missed = true → o.active = false) ∧
  ¬(o.passed = true ∧ o.missed = true)

/-- Relation between a state and a later state of the same tick: either the
game-over flag and all three terminal one-shot effects (crash cue,
game-over music, explosion creation) are untouched, or the flag flipped
false→true and each fired exactly once. -/
def CueRel (a b : GameState) : Prop :=
  (b.gameOver = a.gameOver ∧ b.crashSoundPlays = a.crashSoundPlays ∧
   b.gameOverMusicPlays = a.gameOverMusicPlays ∧
   b.explosionsCreated = a.explosionsCreated) ∨
  (a.gameOver = false ∧ b.gameOver = true ∧
   b.crashSoundPlays = a.crashSoundPlays + 1 ∧
   b.gameOverMusicPlays = a.gameOverMusicPlays + 1 ∧
   b.explosionsCreated = a.explosionsCreated + 1)

/-- A hoop 10 units behind the eagle's path: the next tick records a miss
for it. -/
def c2Hoop : Obj :=
  { type := .hoop, x := 0, y := 10, z := 10 }

/-- State with two misses on the board and `c2Hoop` behind the eagle, so
the next tick records the third miss. -/
def c2State : GameState :=
  { runState with
    misses := 2
    objects := [c2Hoop] }

/-- A hoop dead ahead of `runState`'s eagle at longitudinal offset 0.5. -/
def c3HoopNear : Obj :=
  { type := .hoop, x := 0, y := 10, z := -1/2 }

/-- A hoop dead ahead of `runState`'s eagle at longitudinal offset 3. -/
def c3HoopFar : Obj :=
  { type := .hoop, x := 0, y := 10, z := -3 }

/-- State with one prior miss, the matching intensity `1/3` (tempo 120),
and a hoop placed exactly where the eagle will be after one frame, so the
next tick is a pure scoring event. -/
def c7State : GameState :=
  { runState with
    misses := 1
    intensity := 1/3
    tempo := 120
    objects := [{ type := .hoop, x := 0, y := 10, z := -4/5 }] }

/-- A state already in the game-over configuration. -/
def overState : GameState :=
  { runState with gameOver := true, isRunning := false }

/-- Random draw used by the spawner witness: hoop centered (`rx = ry = 1/2`),
obstacle roll 0 (fires at any positive chance), type roll 1/2 (a fan). -/
def rnd8 : Rnd :=
  { rx := 1/2, ry := 1/2, rObs := 0, rType := 1/2, rWallOff := 0,
    rWallMoving := 0, rWallSpeed := 0, rLogOff := 0 }

/-- State whose spawn clock is due: the horizon `playerZ − 400` sits a full
interval beyond `lastSpawnZ = 0`. -/
def spawnDueState : GameState :=
  { runState with lastSpawnZ := 0 }

/-- Composition of the phases of a running tick that precede the object
update and collision checks (explosion aging, input movement and clamp,
forward movement, spawning); an abbreviation used to state lemmas about
`animate`. -/
def prePhases (inp : Input) (r : Rnd) (s : GameState) : GameState :=
  spawnObjects r (applyMove inp (applyInput inp (updateExplosions s))).eagleZ
    (applyMove inp (applyInput inp (updateExplosions s)))

/-! ### Loop unfolding and generic invariant lemmas -/

theorem missLoopAux_nil (s : GameState) : missLoopAux s [] = (s, []) := rfl

theorem missLoopAux_cons (s : GameState) (o : Obj) (rest : List Obj) :
    missLoopAux s (o :: rest) =
      ((missLoopAux (missStep s o).1 rest).1,
       (missStep s o).2 :: (missLoopAux (missStep s o).1 rest).2) := rfl

theorem checkLoopAux_nil (sq : ℚ → ℚ) (s : GameState) :
    checkLoopAux sq s [] = (s, []) := rfl

theorem checkLoopAux_cons (sq : ℚ → ℚ) (s : GameState) (o : Obj) (rest : List Obj) :
    checkLoopAux sq s (o :: rest) =
      ((checkLoopAux sq (collideStep sq s o).1 rest).1,
       (collideStep sq s o).2 :: (checkLoopAux sq (collideStep sq s o).1 rest).2) := rfl

theorem updateLoop_nil (sn : ℚ → ℚ) (px pz : ℚ) : updateLoop sn px pz [] = [] := rfl

theorem updateLoop_cons (sn : ℚ → ℚ) (px pz : ℚ) (o : Obj) (rest : List Obj) :
    updateLoop sn px pz (o :: rest) =
      (if pz + REMOVE_DISTANCE < (behaviorStep sn px o).z then updateLoop sn px pz rest
       else behaviorStep sn px o :: updateLoop sn px pz rest) := rfl

theorem missLoopAux_rel (R : GameState → GameState → Prop)
    (hrefl : ∀ a, R a a) (htrans : ∀ a b c, R a b → R b c → R a c)
    (hstep : ∀ a o, R a (missStep a o).1) :
    ∀ (l : List Obj) (s : GameState), R s (missLoopAux s l).1 := by
  intro l
  induction l with
  | nil => intro s; exact hrefl s
  | cons o rest ih =>
    intro s
    exact htrans _ _ _ (hstep s o) (ih (missStep s o).1)

theorem checkLoopAux_rel (sq : ℚ → ℚ) (R : GameState → GameState → Prop)
    (hrefl : ∀ a, R a a) (htrans : ∀ a b c, R a b → R b c → R a c)
    (hstep : ∀ a o, R a (collideStep sq a o).1) :
    ∀ (l : List Obj) (s : GameState), R s (checkLoopAux sq s l).1 := by
  intro l
  induction l with
  | nil => intro s; exact hrefl s
  | cons o rest ih =>
    intro s
    exact htrans _ _ _ (hstep s o) (ih (collideStep sq s o).1)

theorem missLoopAux_pred (P : GameState → Prop)
    (hstep : ∀ a o, P a → P (missStep a o).1) :
    ∀ (l : List Obj) (s : GameState), P s → P (missLoopAux s l).1 := by
  intro l
  induction l with
  | nil => intro s hs; exact hs
  | cons o rest ih =>
    intro s hs
    exact ih (missStep s o).1 (hstep s o hs)

theorem checkLoopAux_pred (sq : ℚ → ℚ) (P : GameState → Prop) (Q : Obj → Prop)
    (hstep : ∀ a o, P a → Q o → P (collideStep sq a o).1) :
    ∀ (l : List Obj) (s : GameState), P s → (∀ o ∈ l, Q o) →
      P (checkLoopAux sq s l).1 := by
  intro l
  induction l with
  | nil => intro s hs _; exact hs
  | cons o rest ih =>
    intro s hs hq
    exact ih (collideStep sq s o).1 (hstep s o hs (hq o (by simp)))
      (fun o1 ho1 => hq o1 (by simp [ho1]))

theorem missLoopAux_objs (Q : Obj → Prop)
    (hstep : ∀ s o, Q o → Q (missStep s o).2) :
    ∀ (l : List Obj) (s : GameState), (∀ o ∈ l, Q o) →
      ∀ o1 ∈ (missLoopAux s l).2, Q o1 := by
  intro l
  induction l with
  | nil => intro s _ o1 ho1; simp [missLoopAux_nil] at ho1
  | cons o rest ih =>
    intro s hq o1 ho1
    rw [missLoopAux_cons] at ho1
    simp only [List.mem_cons] at ho1
    rcases ho1 with h | h
    · exact h ▸ hstep s o (hq o (by simp))
    · exact ih (missStep s o).1 (fun o2 ho2 => hq o2 (by simp [ho2])) o1 h

theorem checkLoopAux_objs (sq : ℚ → ℚ) (Q : Obj → Prop)
    (hstep : ∀ s o, Q o → Q (collideStep sq s o).2) :
    ∀ (l : List Obj) (s : GameState), (∀ o ∈ l, Q o) →
      ∀ o1 ∈ (checkLoopAux sq s l).2, Q o1 := by
  intro l
  induction l with
  | nil => intro s _ o1 ho1; simp [checkLoopAux_nil] at ho1
  | cons o rest ih =>
    intro s hq o1 ho1
    rw [checkLoopAux_cons] at ho1
    simp only [List.mem_cons] at ho1
    rcases ho1 with h | h
    · exact h ▸ hstep s o (hq o (by simp))
    · exact ih (collideStep sq s o).1 (fun o2 ho2 => hq o2 (by simp [ho2])) o1 h

theorem updateLoop_objs (sn : ℚ → ℚ) (px pz : ℚ) (Q : Obj → Prop)
    (hstep : ∀ o, Q o → Q (behaviorStep sn px o)) :
    ∀ l : List Obj, (∀ o ∈ l, Q o) → ∀ o1 ∈ updateLoop sn px pz l, Q o1 := by
  intro l
  induction l with
  | nil => intro _ o1 ho1; simp [updateLoop_nil] at ho1
  | cons o rest ih =>
    intro hq o1 ho1
    rw [updateLoop_cons] at ho1
    split at ho1
    · exact ih (fun o2 ho2 => hq o2 (by simp [ho2])) o1 ho1
    · simp only [List.mem_cons] at ho1
      rcases ho1 with h | h
      · exact h ▸ hstep o (hq o (by simp))
      · exact ih (fun o2 ho2 => hq o2 (by simp [ho2])) o1 h

/-! ### Field lemmas for the atomic state transformers -/

theorem gameOver_of_over {s : GameState} (h : s.gameOver = true) :
    gameOver s = s := by
  simp [gameOver, h]

theorem gameOver_gameOver (s : GameState) : (gameOver s).gameOver = true := by
  simp only [gameOver, createExplosion]
  split <;> simp_all

theorem gameOver_misses (s : GameState) : (gameOver s).misses = s.misses := by
  simp only [gameOver, createExplosion]
  split <;> rfl

theorem gameOver_score (s : GameState) : (gameOver s).score = s.score := by
  simp only [gameOver, createExplosion]
  split <;> rfl

theorem gameOver_speed (s : GameState) : (gameOver s).speed = s.speed := by
  simp only [gameOver, createExplosion]
  split <;> rfl

theorem gameOver_eagleX (s : GameState) : (gameOver s).eagleX = s.eagleX := by
  simp only [gameOver, createExplosion]
  split <;> rfl

theorem gameOver_eagleY (s : GameState) : (gameOver s).eagleY = s.eagleY := by
  simp only [gameOver, createExplosion]
  split <;> rfl

theorem gameOver_eagleZ (s : GameState) : (gameOver s).eagleZ = s.eagleZ := by
  simp only [gameOver, createExplosion]
  split <;> rfl

theorem gameOver_isPaused (s : GameState) : (gameOver s).isPaused = s.isPaused := by
  simp only [gameOver, createExplosion]
  split <;> rfl

theorem gameOver_wasAuto (s : GameState) :
    (gameOver s).wasAutoPausedByVisibility = s.wasAutoPausedByVisibility := by
  simp only [gameOver, createExplosion]
  split <;> rfl

theorem gameOver_collect (s : GameState) :
    (gameOver s).collectSoundPlays = s.collectSoundPlays := by
  simp only [gameOver, createExplosion]
  split <;> rfl

theorem gameOver_isRunning_of_not {s : GameState} (h : s.gameOver = false) :
    (gameOver s).isRunning = false := by
  simp [gameOver, createExplosion, h]

theorem gameOver_pres_G {s : GameState}
    (h : s.gameOver = true → s.isRunning = false) :
    (gameOver s).gameOver = true → (gameOver s).isRunning = false := by
  intro _
  by_cases hg : s.gameOver = true
  · rw [gameOver_of_over hg]; exact h hg
  · simp only [Bool.not_eq_true] at hg
    exact gameOver_isRunning_of_not hg

theorem gameOver_cueRel (s : GameState) : CueRel s (gameOver s) := by
  by_cases hg : s.gameOver = true
  · exact Or.inl (by rw [gameOver_of_over hg]; exact ⟨rfl, rfl, rfl, rfl⟩)
  · simp only [Bool.not_eq_true] at hg
    refine Or.inr ⟨hg, gameOver_gameOver s, ?_, ?_, ?_⟩ <;>
      simp [gameOver, createExplosion, hg]

theorem cueRel_refl (s : GameState) : CueRel s s := Or.inl ⟨rfl, rfl, rfl, rfl⟩

theorem cueRel_trans (a b c : GameState) (h1 : CueRel a b) (h2 : CueRel b c) :
    CueRel a c := by
  rcases h1 with ⟨e1, e2, e3, e4⟩ | ⟨f1, f2, f3, f4, f5⟩
  · rcases h2 with ⟨g1, g2, g3, g4⟩ | ⟨k1, k2, k3, k4, k5⟩
    · exact Or.inl ⟨e1 ▸ g1, e2 ▸ g2, e3 ▸ g3, e4 ▸ g4⟩
    · exact Or.inr ⟨e1 ▸ k1, k2, e2 ▸ k3, e3 ▸ k4, e4 ▸ k5⟩
  · rcases h2 with ⟨g1, g2, g3, g4⟩ | ⟨k1, k2, k3, k4, k5⟩
    · exact Or.inr ⟨f1, f2 ▸ g1, f3 ▸ g2, f4 ▸ g3, f5 ▸ g4⟩
    · rw [f2] at k1; cases k1

theorem gameOver_objects (s : GameState) : (gameOver s).objects = s.objects := by
  simp only [gameOver, createExplosion]
  split <;> rfl

theorem gameOver_lastSpawnZ (s : GameState) :
    (gameOver s).lastSpawnZ = s.lastSpawnZ := by
  simp only [gameOver, createExplosion]
  split <;> rfl

theorem missStep_score (s : GameState) (o : Obj) :
    (missStep s o).1.score = s.score := by
  simp only [missStep, setIntensity]
  split
  · split
    · rw [gameOver_score]
    · rfl
  · rfl

theorem missStep_speed (s : GameState) (o : Obj) :
    (missStep s o).1.speed = s.speed := by
  simp only [missStep, setIntensity]
  split
  · split
    · rw [gameOver_speed]
    · rfl
  · rfl

theorem missStep_eagleX (s : GameState) (o : Obj) :
    (missStep s o).1.eagleX = s.eagleX := by
  simp only [missStep, setIntensity]
  split
  · split
    · rw [gameOver_eagleX]
    · rfl
  · rfl

theorem missStep_eagleY (s : GameState) (o : Obj) :
    (missStep s o).1.eagleY = s.eagleY := by
  simp only [missStep, setIntensity]
  split
  · split
    · rw [gameOver_eagleY]
    · rfl
  · rfl

theorem missStep_eagleZ (s : GameState) (o : Obj) :
    (missStep s o).1.eagleZ = s.eagleZ := by
  simp only [missStep, setIntensity]
  split
  · split
    · rw [gameOver_eagleZ]
    · rfl
  · rfl

theorem missStep_isPaused (s : GameState) (o : Obj) :
    (missStep s o).1.isPaused = s.isPaused := by
  simp only [missStep, setIntensity]
  split
  · split
    · rw [gameOver_isPaused]
    · rfl
  · rfl

theorem missStep_wasAuto (s : GameState) (o : Obj) :
    (missStep s o).1.wasAutoPausedByVisibility = s.wasAutoPausedByVisibility := by
  simp only [missStep, setIntensity]
  split
  · split
    · rw [gameOver_wasAuto]
    · rfl
  · rfl

theorem missStep_collect (s : GameState) (o : Obj) :
    (missStep s o).1.collectSoundPlays = s.collectSoundPlays := by
  simp only [missStep, setIntensity]
  split
  · split
    · rw [gameOver_collect]
    · rfl
  · rfl

theorem missStep_objects (s : GameState) (o : Obj) :
    (missStep s o).1.objects = s.objects := by
  simp only [missStep, setIntensity]
  split
  · split
    · rw [gameOver_objects]
    · rfl
  · rfl

theorem missStep_misses_mono (s : GameState) (o : Obj) :
    s.misses ≤ (missStep s o).1.misses := by
  simp only [missStep, setIntensity]
  split
  · split
    · rw [gameOver_misses]; exact Nat.le_succ _
    · exact Nat.le_succ _
  · exact le_refl _

theorem missStep_pres_M {s : GameState} (o : Obj)
    (h : 3 ≤ s.misses → s.gameOver = true) :
    3 ≤ (missStep s o).1.misses → (missStep s o).1.gameOver = true := by
  simp only [missStep, setIntensity]
  split
  · split
    · intro _; rw [gameOver_gameOver]
    · intro h3; simp_all
  · exact h

theorem missStep_pres_G {s : GameState} (o : Obj)
    (h : s.gameOver = true → s.isRunning = false) :
    (missStep s o).1.gameOver = true → (missStep s o).1.isRunning = false := by
  simp only [missStep, setIntensity]
  split
  · split
    · exact gameOver_pres_G h
    · exact h
  · exact h

theorem missStep_cueRel (s : GameState) (o : Obj) : CueRel s (missStep s o).1 := by
  simp only [missStep, setIntensity]
  split
  · split
    · exact cueRel_trans s _ _ (Or.inl ⟨rfl, rfl, rfl, rfl⟩) (gameOver_cueRel _)
    · exact Or.inl ⟨rfl, rfl, rfl, rfl⟩
  · exact cueRel_refl s

theorem missStep_obj_type (s : GameState) (o : Obj) :
    (missStep s o).2.type = o.type := by
  simp only [missStep]
  split <;> rfl

theorem missStep_obj_x (s : GameState) (o : Obj) : (missStep s o).2.x = o.x := by
  simp only [missStep]
  split <;> rfl

theorem missStep_obj_force (s : GameState) (o : Obj) :
    (missStep s o).2.force = o.force := by
  simp only [missStep]
  split <;> rfl

theorem missStep_obj_fanOK (s : GameState) (o : Obj) (h : FanOK o) :
    FanOK (missStep s o).2 := by
  intro hf
  rw [missStep_obj_type] at hf
  rw [missStep_obj_force, missStep_obj_x]
  exact h hf

theorem missStep_obj_hoopCons (s : GameState) (o : Obj) (h : HoopConsistent o) :
    HoopConsistent (missStep s o).2 := by
  simp only [missStep]
  split
  · next hc =>
    refine ⟨fun _ => rfl, fun _ => rfl, ?_⟩
    rintro ⟨hp, _⟩
    simp only at hp
    rw [hc.2.2.1] at hp
    cases hp
  · exact h

theorem collideStep_misses (sq : ℚ → ℚ) (s : GameState) (o : Obj) :
    (collideStep sq s o).1.misses = s.misses := by
  simp only [collideStep]
  repeat' split
  all_goals simp [gameOver_misses]

theorem collideStep_eagleY (sq : ℚ → ℚ) (s : GameState) (o : Obj) :
    (collideStep sq s o).1.eagleY = s.eagleY := by
  simp only [collideStep]
  repeat' split
  all_goals simp [gameOver_eagleY]

theorem collideStep_eagleZ (sq : ℚ → ℚ) (s : GameState) (o : Obj) :
    (collideStep sq s o).1.eagleZ = s.eagleZ := by
  simp only [collideStep]
  repeat' split
  all_goals simp [gameOver_eagleZ]

theorem collideStep_isPaused (sq : ℚ → ℚ) (s : GameState) (o : Obj) :
    (collideStep sq s o).1.isPaused = s.isPaused := by
  simp only [collideStep]
  repeat' split
  all_goals simp [gameOver_isPaused]

theorem collideStep_wasAuto (sq : ℚ → ℚ) (s : GameState) (o : Obj) :
    (collideStep sq s o).1.wasAutoPausedByVisibility =
      s.wasAutoPausedByVisibility := by
  simp only [collideStep]
  repeat' split
  all_goals simp [gameOver_wasAuto]

theorem collideStep_objects (sq : ℚ → ℚ) (s : GameState) (o : Obj) :
    (collideStep sq s o).1.objects = s.objects := by
  simp only [collideStep]
  repeat' split
  all_goals simp [gameOver_objects]

theorem collideStep_gameOver_mono (sq : ℚ → ℚ) (s : GameState) (o : Obj)
    (hg : s.gameOver = true) : (collideStep sq s o).1.gameOver = true := by
  simp only [collideStep]
  repeat' split
  all_goals simp [gameOver_gameOver, hg]

theorem collideStep_pres_M (sq : ℚ → ℚ) {s : GameState} (o : Obj)
    (h : 3 ≤ s.misses → s.gameOver = true) :
    3 ≤ (collideStep sq s o).1.misses → (collideStep sq s o).1.gameOver = true := by
  intro h3
  rw [collideStep_misses] at h3
  exact collideStep_gameOver_mono sq s o (h h3)

theorem collideStep_pres_G (sq : ℚ → ℚ) {s : GameState} (o : Obj)
    (h : s.gameOver = true → s.isRunning = false) :
    (collideStep sq s o).1.gameOver = true →
      (collideStep sq s o).1.isRunning = false := by
  simp only [collideStep]
  repeat' split
  all_goals first
    | exact h
    | exact gameOver_pres_G h

theorem collideStep_cueRel (sq : ℚ → ℚ) (s : GameState) (o : Obj) :
    CueRel s (collideStep sq s o).1 := by
  simp only [collideStep]
  repeat' split
  all_goals first
    | exact cueRel_refl s
    | exact Or.inl ⟨rfl, rfl, rfl, rfl⟩
    | exact gameOver_cueRel s

theorem collideStep_intensity (sq : ℚ → ℚ) (s : GameState) (o : Obj)
    (ht : o.type = ObjType.hoop) :
    (collideStep sq s o).1.intensity = s.intensity ∧
      (collideStep sq s o).1.tempo = s.tempo := by
  simp only [collideStep]
  repeat' split
  all_goals simp_all

theorem collideStep_obj_type (sq : ℚ → ℚ) (s : GameState) (o : Obj) :
    (collideStep sq s o).2.type = o.type := by
  simp only [collideStep]
  repeat' split
  all_goals rfl

theorem collideStep_obj_x (sq : ℚ → ℚ) (s : GameState) (o : Obj) :
    (collideStep sq s o).2.x = o.x := by
  simp only [collideStep]
  repeat' split
  all_goals rfl

theorem collideStep_obj_force (sq : ℚ → ℚ) (s : GameState) (o : Obj) :
    (collideStep sq s o).2.force = o.force := by
  simp only [collideStep]
  repeat' split
  all_goals rfl

theorem collideStep_obj_fanOK (sq : ℚ → ℚ) (s : GameState) (o : Obj)
    (h : FanOK o) : FanOK (collideStep sq s o).2 := by
  intro hf
  rw [collideStep_obj_type] at hf
  rw [collideStep_obj_force, collideStep_obj_x]
  exact h hf

theorem collideStep_obj_hoopCons (sq : ℚ → ℚ) (s : GameState) (o : Obj)
    (h : HoopConsistent o) : HoopConsistent (collideStep sq s o).2 := by
  by_cases ha : o.active = false
  · simp only [collideStep, ha, if_pos]
    exact h
  · have hmiss : o.missed = false := by
      cases hm : o.missed
      · rfl
      · exact absurd (h.2.1 hm) ha
    simp only [collideStep]
    repeat' split
    all_goals try exact h
    -- remaining goal: the scoring branch, whose object is marked passed+inactive
    refine ⟨fun _ => rfl, fun _ => rfl, ?_⟩
    rintro ⟨_, hm⟩
    have hm1 : o.missed = true := hm
    rw [hmiss] at hm1
    cases hm1

theorem behaviorStep_type (sn : ℚ → ℚ) (px : ℚ) (o : Obj) :
    (behaviorStep sn px o).type = o.type := by
  simp only [behaviorStep]
  repeat' split
  all_goals rfl

theorem behaviorStep_passed (sn : ℚ → ℚ) (px : ℚ) (o : Obj) :
    (behaviorStep sn px o).passed = o.passed := by
  simp only [behaviorStep]
  repeat' split
  all_goals rfl

theorem behaviorStep_missed (sn : ℚ → ℚ) (px : ℚ) (o : Obj) :
    (behaviorStep sn px o).missed = o.missed := by
  simp only [behaviorStep]
  repeat' split
  all_goals rfl

theorem behaviorStep_active (sn : ℚ → ℚ) (px : ℚ) (o : Obj) :
    (behaviorStep sn px o).active = o.active := by
  simp only [behaviorStep]
  repeat' split
  all_goals rfl

theorem behaviorStep_hoopCons (sn : ℚ → ℚ) (px : ℚ) (o : Obj)
    (h : HoopConsistent o) : HoopConsistent (behaviorStep sn px o) := by
  unfold HoopConsistent
  rw [behaviorStep_passed, behaviorStep_missed, behaviorStep_active]
  exact h

theorem behaviorStep_fanOK (sn : ℚ → ℚ) (px : ℚ) (o : Obj) (h : FanOK o) :
    FanOK (behaviorStep sn px o) := by
  intro hf
  rw [behaviorStep_type] at hf
  have hfo := h hf
  simp only [behaviorStep]
  repeat' split
  all_goals simp_all

/-! ### Phase lemmas -/

theorem updateExplosions_isRunning (s : GameState) :
    (updateExplosions s).isRunning = s.isRunning := rfl

theorem updateExplosions_scalars (s : GameState) :
    (updateExplosions s).misses = s.misses ∧
    (updateExplosions s).score = s.score ∧
    (updateExplosions s).gameOver = s.gameOver ∧
    (updateExplosions s).speed = s.speed ∧
    (updateExplosions s).eagleX = s.eagleX ∧
    (updateExplosions s).eagleY = s.eagleY ∧
    (updateExplosions s).eagleZ = s.eagleZ ∧
    (updateExplosions s).objects = s.objects ∧
    (updateExplosions s).explosionsCreated = s.explosionsCreated ∧
    (updateExplosions s).crashSoundPlays = s.crashSoundPlays ∧
    (updateExplosions s).gameOverMusicPlays = s.gameOverMusicPlays ∧
    (updateExplosions s).intensity = s.intensity ∧
    (updateExplosions s).tempo = s.tempo :=
  ⟨rfl, rfl, rfl, rfl, rfl, rfl, rfl, rfl, rfl, rfl, rfl, rfl, rfl⟩

theorem applyInput_misses (inp : Input) (s : GameState) :
    (applyInput inp s).misses = s.misses := by
  simp only [applyInput]
  repeat' split
  all_goals rfl

theorem applyInput_score (inp : Input) (s : GameState) :
    (applyInput inp s).score = s.score := by
  simp only [applyInput]
  repeat' split
  all_goals rfl

theorem applyInput_gameOver (inp : Input) (s : GameState) :
    (applyInput inp s).gameOver = s.gameOver := by
  simp only [applyInput]
  repeat' split
  all_goals rfl

theorem applyInput_isRunning (inp : Input) (s : GameState) :
    (applyInput inp s).isRunning = s.isRunning := by
  simp only [applyInput]
  repeat' split
  all_goals rfl

theorem applyInput_eagleZ (inp : Input) (s : GameState) :
    (applyInput inp s).eagleZ = s.eagleZ := by
  simp only [applyInput]
  repeat' split
  all_goals rfl

theorem applyInput_speed (inp : Input) (s : GameState) :
    (applyInput inp s).speed = s.speed := by
  simp only [applyInput]
  repeat' split
  all_goals rfl

theorem applyInput_objects (inp : Input) (s : GameState) :
    (applyInput inp s).objects = s.objects := by
  simp only [applyInput]
  repeat' split
  all_goals rfl

theorem applyInput_intensity (inp : Input) (s : GameState) :
    (applyInput inp s).intensity = s.intensity := by
  simp only [applyInput]
  repeat' split
  all_goals rfl

theorem applyInput_tempo (inp : Input) (s : GameState) :
    (applyInput inp s).tempo = s.tempo := by
  simp only [applyInput]
  repeat' split
  all_goals rfl

theorem applyInput_cues (inp : Input) (s : GameState) :
    (applyInput inp s).explosionsCreated = s.explosionsCreated ∧
    (applyInput inp s).crashSoundPlays = s.crashSoundPlays ∧
    (applyInput inp s).gameOverMusicPlays = s.gameOverMusicPlays := by
  simp only [applyInput]
  repeat' split
  all_goals exact ⟨rfl, rfl, rfl⟩

theorem applyInput_y (inp : Input) (s : GameState) :
    1 ≤ (applyInput inp s).eagleY ∧ (applyInput inp s).eagleY ≤ 50 :=
  ⟨le_max_left _ _, max_le (by norm_num) (min_le_right _ _)⟩

theorem applyInput_x (inp : Input) (s : GameState) :
    -100 ≤ (applyInput inp s).eagleX ∧ (applyInput inp s).eagleX ≤ 100 :=
  ⟨le_max_left _ _, max_le (by norm_num) (min_le_right _ _)⟩

theorem applyMove_eagleZ (inp : Input) (s : GameState) :
    (applyMove inp s).eagleZ =
      s.eagleZ -
        (s.speed + (if (inp.keySpace || inp.accelBtn) = true then PLAYER_ACCEL else 0)) *
          frameDt := rfl

theorem applyMove_scalars (inp : Input) (s : GameState) :
    (applyMove inp s).misses = s.misses ∧
    (applyMove inp s).score = s.score ∧
    (applyMove inp s).gameOver = s.gameOver ∧
    (applyMove inp s).isRunning = s.isRunning ∧
    (applyMove inp s).speed = s.speed ∧
    (applyMove inp s).eagleX = s.eagleX ∧
    (applyMove inp s).eagleY = s.eagleY ∧
    (applyMove inp s).objects = s.objects ∧
    (applyMove inp s).lastSpawnZ = s.lastSpawnZ ∧
    (applyMove inp s).explosionsCreated = s.explosionsCreated ∧
    (applyMove inp s).crashSoundPlays = s.crashSoundPlays ∧
    (applyMove inp s).gameOverMusicPlays = s.gameOverMusicPlays ∧
    (applyMove inp s).intensity = s.intensity ∧
    (applyMove inp s).tempo = s.tempo :=
  ⟨rfl, rfl, rfl, rfl, rfl, rfl, rfl, rfl, rfl, rfl, rfl, rfl, rfl, rfl⟩

theorem spawnObjects_scalars (r : Rnd) (pz : ℚ) (s : GameState) :
    (spawnObjects r pz s).misses = s.misses ∧
    (spawnObjects r pz s).score = s.score ∧
    (spawnObjects r pz s).gameOver = s.gameOver ∧
    (spawnObjects r pz s).isRunning = s.isRunning ∧
    (spawnObjects r pz s).speed = s.speed ∧
    (spawnObjects r pz s).eagleX = s.eagleX ∧
    (spawnObjects r pz s).eagleY = s.eagleY ∧
    (spawnObjects r pz s).eagleZ = s.eagleZ ∧
    (spawnObjects r pz s).explosionsCreated = s.explosionsCreated ∧
    (spawnObjects r pz s).crashSoundPlays = s.crashSoundPlays ∧
    (spawnObjects r pz s).gameOverMusicPlays = s.gameOverMusicPlays ∧
    (spawnObjects r pz s).intensity = s.intensity ∧
    (spawnObjects r pz s).tempo = s.tempo := by
  simp only [spawnObjects]
  repeat' split
  all_goals exact ⟨rfl, rfl, rfl, rfl, rfl, rfl, rfl, rfl, rfl, rfl, rfl, rfl, rfl⟩

theorem spawnObjects_objs (Q : Obj → Prop) (r : Rnd) (pz : ℚ) (s : GameState)
    (hq : ∀ o ∈ s.objects, Q o)
    (hh : Q (spawnHoop ((r.rx - 1/2) * 80) (r.ry * 30 + 5) (pz - SPAWN_DISTANCE)))
    (hob : Q (spawnedObstacle r ((r.rx - 1/2) * 80) (r.ry * 30 + 5)
      (pz - SPAWN_DISTANCE))) :
    ∀ o ∈ (spawnObjects r pz s).objects, Q o := by
  simp only [spawnObjects]
  repeat' split
  · intro o ho
    simp only [List.append_assoc, List.mem_append, List.mem_singleton] at ho
    rcases ho with h | h | h
    · exact hq o h
    · exact h ▸ hh
    · exact h ▸ hob
  · intro o ho
    simp only [List.mem_append, List.mem_singleton] at ho
    rcases ho with h | h
    · exact hq o h
    · exact h ▸ hh
  · exact hq

theorem togglePause_of_blocked {s : GameState}
    (h : s.isRunning = false ∨ s.gameOver = true) : togglePause s = s := by
  unfold togglePause
  rw [if_pos]
  rcases h with h | h
  · exact Or.inl h
  · exact Or.inr h

theorem togglePause_scalars (s : GameState) :
    (togglePause s).isRunning = s.isRunning ∧
    (togglePause s).gameOver = s.gameOver ∧
    (togglePause s).misses = s.misses ∧
    (togglePause s).score = s.score ∧
    (togglePause s).objects = s.objects ∧
    (togglePause s).wasAutoPausedByVisibility = s.wasAutoPausedByVisibility := by
  simp only [togglePause, pauseMusic, resumeMusic]
  repeat' split
  all_goals exact ⟨rfl, rfl, rfl, rfl, rfl, rfl⟩

theorem togglePause_isPaused {s : GameState} (hr : s.isRunning = true)
    (hg : s.gameOver = false) : (togglePause s).isPaused = !s.isPaused := by
  simp only [togglePause, pauseMusic, resumeMusic]
  rw [if_neg (by simp [hr, hg])]
  split
  all_goals rfl

theorem updateObjects_proj (sn : ℚ → ℚ) (s : GameState) :
    (updateObjects sn s).misses = (missLoopAux s s.objects).1.misses ∧
    (updateObjects sn s).score = (missLoopAux s s.objects).1.score ∧
    (updateObjects sn s).gameOver = (missLoopAux s s.objects).1.gameOver ∧
    (updateObjects sn s).isRunning = (missLoopAux s s.objects).1.isRunning ∧
    (updateObjects sn s).speed = (missLoopAux s s.objects).1.speed ∧
    (updateObjects sn s).eagleX = (missLoopAux s s.objects).1.eagleX ∧
    (updateObjects sn s).eagleY = (missLoopAux s s.objects).1.eagleY ∧
    (updateObjects sn s).eagleZ = (missLoopAux s s.objects).1.eagleZ ∧
    (updateObjects sn s).intensity = (missLoopAux s s.objects).1.intensity ∧
    (updateObjects sn s).tempo = (missLoopAux s s.objects).1.tempo ∧
    (updateObjects sn s).explosionsCreated =
      (missLoopAux s s.objects).1.explosionsCreated ∧
    (updateObjects sn s).crashSoundPlays =
      (missLoopAux s s.objects).1.crashSoundPlays ∧
    (updateObjects sn s).gameOverMusicPlays =
      (missLoopAux s s.objects).1.gameOverMusicPlays :=
  ⟨rfl, rfl, rfl, rfl, rfl, rfl, rfl, rfl, rfl, rfl, rfl, rfl, rfl⟩

theorem updateObjects_objects (sn : ℚ → ℚ) (s : GameState) :
    (updateObjects sn s).objects =
      updateLoop sn (missLoopAux s s.objects).1.eagleX
        (missLoopAux s s.objects).1.eagleZ (missLoopAux s s.objects).2 := rfl

theorem checkCollisions_proj (sq : ℚ → ℚ) (s : GameState) :
    (checkCollisions sq s).misses = (checkLoopAux sq s s.objects).1.misses ∧
    (checkCollisions sq s).score = (checkLoopAux sq s s.objects).1.score ∧
    (checkCollisions sq s).gameOver = (checkLoopAux sq s s.objects).1.gameOver ∧
    (checkCollisions sq s).isRunning = (checkLoopAux sq s s.objects).1.isRunning ∧
    (checkCollisions sq s).speed = (checkLoopAux sq s s.objects).1.speed ∧
    (checkCollisions sq s).eagleX = (checkLoopAux sq s s.objects).1.eagleX ∧
    (checkCollisions sq s).eagleY = (checkLoopAux sq s s.objects).1.eagleY ∧
    (checkCollisions sq s).eagleZ = (checkLoopAux sq s s.objects).1.eagleZ ∧
    (checkCollisions sq s).intensity = (checkLoopAux sq s s.objects).1.intensity ∧
    (checkCollisions sq s).tempo = (checkLoopAux sq s s.objects).1.tempo ∧
    (checkCollisions sq s).explosionsCreated =
      (checkLoopAux sq s s.objects).1.explosionsCreated ∧
    (checkCollisions sq s).crashSoundPlays =
      (checkLoopAux sq s s.objects).1.crashSoundPlays ∧
    (checkCollisions sq s).gameOverMusicPlays =
      (checkLoopAux sq s s.objects).1.gameOverMusicPlays :=
  ⟨rfl, rfl, rfl, rfl, rfl, rfl, rfl, rfl, rfl, rfl, rfl, rfl, rfl⟩

theorem checkCollisions_objects (sq : ℚ → ℚ) (s : GameState) :
    (checkCollisions sq s).objects = (checkLoopAux sq s s.objects).2 := rfl

theorem animate_paused {s : GameState} (sq sn : ℚ → ℚ) (inp : Input) (r : Rnd)
    (h : s.isPaused = true) : animate sq sn inp r s = s := by
  simp [animate, h]

theorem animate_idle {s : GameState} (sq sn : ℚ → ℚ) (inp : Input) (r : Rnd)
    (h1 : s.isPaused = false) (h2 : s.isRunning = false) :
    animate sq sn inp r s = updateExplosions s := by
  simp [animate, h1, updateExplosions_isRunning, h2]

theorem animate_run {s : GameState} (sq sn : ℚ → ℚ) (inp : Input) (r : Rnd)
    (h1 : s.isPaused = false) (h2 : s.isRunning = true) :
    animate sq sn inp r s =
      checkCollisions sq (updateObjects sn (prePhases inp r s)) := by
  simp [animate, prePhases, h1, updateExplosions_isRunning, h2]

/-! ### Aggregated loop and pre-phase lemmas -/

theorem missLoopAux_misses_mono (l : List Obj) (s : GameState) :
    s.misses ≤ (missLoopAux s l).1.misses :=
  missLoopAux_rel (fun a b => a.misses ≤ b.misses) (fun _ => le_refl _)
    (fun _ _ _ => le_trans) missStep_misses_mono l s

theorem checkLoopAux_misses (sq : ℚ → ℚ) (l : List Obj) (s : GameState) :
    (checkLoopAux sq s l).1.misses = s.misses :=
  checkLoopAux_rel sq (fun a b => b.misses = a.misses) (fun _ => rfl)
    (fun _ _ _ h1 h2 => h2.trans h1) (fun a o => collideStep_misses sq a o) l s

theorem checkLoopAux_eagleY (sq : ℚ → ℚ) (l : List Obj) (s : GameState) :
    (checkLoopAux sq s l).1.eagleY = s.eagleY :=
  checkLoopAux_rel sq (fun a b => b.eagleY = a.eagleY) (fun _ => rfl)
    (fun _ _ _ h1 h2 => h2.trans h1) (fun a o => collideStep_eagleY sq a o) l s

theorem checkLoopAux_eagleZ (sq : ℚ → ℚ) (l : List Obj) (s : GameState) :
    (checkLoopAux sq s l).1.eagleZ = s.eagleZ :=
  checkLoopAux_rel sq (fun a b => b.eagleZ = a.eagleZ) (fun _ => rfl)
    (fun _ _ _ h1 h2 => h2.trans h1) (fun a o => collideStep_eagleZ sq a o) l s

theorem missLoopAux_score (l : List Obj) (s : GameState) :
    (missLoopAux s l).1.score = s.score :=
  missLoopAux_rel (fun a b => b.score = a.score) (fun _ => rfl)
    (fun _ _ _ h1 h2 => h2.trans h1) missStep_score l s

theorem missLoopAux_eagleX (l : List Obj) (s : GameState) :
    (missLoopAux s l).1.eagleX = s.eagleX :=
  missLoopAux_rel (fun a b => b.eagleX = a.eagleX) (fun _ => rfl)
    (fun _ _ _ h1 h2 => h2.trans h1) missStep_eagleX l s

theorem missLoopAux_eagleY (l : List Obj) (s : GameState) :
    (missLoopAux s l).1.eagleY = s.eagleY :=
  missLoopAux_rel (fun a b => b.eagleY = a.eagleY) (fun _ => rfl)
    (fun _ _ _ h1 h2 => h2.trans h1) missStep_eagleY l s

theorem missLoopAux_eagleZ (l : List Obj) (s : GameState) :
    (missLoopAux s l).1.eagleZ = s.eagleZ :=
  missLoopAux_rel (fun a b => b.eagleZ = a.eagleZ) (fun _ => rfl)
    (fun _ _ _ h1 h2 => h2.trans h1) missStep_eagleZ l s

theorem missLoopAux_pres_M (l : List Obj) {s : GameState}
    (h : 3 ≤ s.misses → s.gameOver = true) :
    3 ≤ (missLoopAux s l).1.misses → (missLoopAux s l).1.gameOver = true :=
  missLoopAux_pred (fun t => 3 ≤ t.misses → t.gameOver = true)
    (fun _a o ha => missStep_pres_M o ha) l s h

theorem checkLoopAux_pres_M (sq : ℚ → ℚ) (l : List Obj) {s : GameState}
    (h : 3 ≤ s.misses → s.gameOver = true) :
    3 ≤ (checkLoopAux sq s l).1.misses → (checkLoopAux sq s l).1.gameOver = true :=
  checkLoopAux_pred sq (fun t => 3 ≤ t.misses → t.gameOver = true) (fun _ => True)
    (fun _a o ha _ => collideStep_pres_M sq o ha) l s h (fun _ _ => trivial)

theorem missLoopAux_pres_G (l : List Obj) {s : GameState}
    (h : s.gameOver = true → s.isRunning = false) :
    (missLoopAux s l).1.gameOver = true → (missLoopAux s l).1.isRunning = false :=
  missLoopAux_pred (fun t => t.gameOver = true → t.isRunning = false)
    (fun _a o ha => missStep_pres_G o ha) l s h

theorem checkLoopAux_pres_G (sq : ℚ → ℚ) (l : List Obj) {s : GameState}
    (h : s.gameOver = true → s.isRunning = false) :
    (checkLoopAux sq s l).1.gameOver = true →
      (checkLoopAux sq s l).1.isRunning = false :=
  checkLoopAux_pred sq (fun t => t.gameOver = true → t.isRunning = false)
    (fun _ => True) (fun _a o ha _ => collideStep_pres_G sq o ha) l s h
    (fun _ _ => trivial)

theorem missLoopAux_cueRel (l : List Obj) (s : GameState) :
    CueRel s (missLoopAux s l).1 :=
  missLoopAux_rel CueRel cueRel_refl cueRel_trans missStep_cueRel l s

theorem checkLoopAux_cueRel (sq : ℚ → ℚ) (l : List Obj) (s : GameState) :
    CueRel s (checkLoopAux sq s l).1 :=
  checkLoopAux_rel sq CueRel cueRel_refl cueRel_trans
    (fun a o => collideStep_cueRel sq a o) l s

theorem prePhases_misses (inp : Input) (r : Rnd) (s : GameState) :
    (prePhases inp r s).misses = s.misses := by
  unfold prePhases
  obtain ⟨p1, -⟩ := spawnObjects_scalars r _ _
  obtain ⟨m1, -⟩ := applyMove_scalars inp (applyInput inp (updateExplosions s))
  rw [p1, m1, applyInput_misses]
  rfl

theorem prePhases_score (inp : Input) (r : Rnd) (s : GameState) :
    (prePhases inp r s).score = s.score := by
  unfold prePhases
  obtain ⟨-, p2, -⟩ := spawnObjects_scalars r _ _
  obtain ⟨-, m2, -⟩ := applyMove_scalars inp (applyInput inp (updateExplosions s))
  rw [p2, m2, applyInput_score]
  rfl

theorem prePhases_gameOver (inp : Input) (r : Rnd) (s : GameState) :
    (prePhases inp r s).gameOver = s.gameOver := by
  unfold prePhases
  obtain ⟨-, -, p3, -⟩ := spawnObjects_scalars r _ _
  obtain ⟨-, -, m3, -⟩ := applyMove_scalars inp (applyInput inp (updateExplosions s))
  rw [p3, m3, applyInput_gameOver]
  rfl

theorem prePhases_isRunning (inp : Input) (r : Rnd) (s : GameState) :
    (prePhases inp r s).isRunning = s.isRunning := by
  unfold prePhases
  obtain ⟨-, -, -, p4, -⟩ := spawnObjects_scalars r _ _
  obtain ⟨-, -, -, m4, -⟩ := applyMove_scalars inp (applyInput inp (updateExplosions s))
  rw [p4, m4, applyInput_isRunning]
  rfl

theorem prePhases_speed (inp : Input) (r : Rnd) (s : GameState) :
    (prePhases inp r s).speed = s.speed := by
  unfold prePhases
  obtain ⟨-, -, -, -, p5, -⟩ := spawnObjects_scalars r _ _
  obtain ⟨-, -, -, -, m5, -⟩ := applyMove_scalars inp (applyInput inp (updateExplosions s))
  rw [p5, m5, applyInput_speed]
  rfl

theorem prePhases_intensity (inp : Input) (r : Rnd) (s : GameState) :
    (prePhases inp r s).intensity = s.intensity := by
  unfold prePhases
  obtain ⟨-, -, -, -, -, -, -, -, -, -, -, p12, -⟩ := spawnObjects_scalars r _ _
  obtain ⟨-, -, -, -, -, -, -, -, -, -, -, -, m13, -⟩ :=
    applyMove_scalars inp (applyInput inp (updateExplosions s))
  rw [p12, m13, applyInput_intensity]
  rfl

theorem prePhases_cues (inp : Input) (r : Rnd) (s : GameState) :
    (prePhases inp r s).explosionsCreated = s.explosionsCreated ∧
    (prePhases inp r s).crashSoundPlays = s.crashSoundPlays ∧
    (prePhases inp r s).gameOverMusicPlays = s.gameOverMusicPlays := by
  unfold prePhases
  obtain ⟨-, -, -, -, -, -, -, -, p9, p10, p11, -⟩ := spawnObjects_scalars r _ _
  obtain ⟨-, -, -, -, -, -, -, -, -, m10, m11, m12, -⟩ :=
    applyMove_scalars inp (applyInput inp (updateExplosions s))
  obtain ⟨a1, a2, a3⟩ := applyInput_cues inp (updateExplosions s)
  refine ⟨?_, ?_, ?_⟩
  · rw [p9, m10, a1]
    rfl
  · rw [p10, m11, a2]
    rfl
  · rw [p11, m12, a3]
    rfl

theorem prePhases_eagleZ (inp : Input) (r : Rnd) (s : GameState) :
    (prePhases inp r s).eagleZ =
      s.eagleZ -
        (s.speed + (if (inp.keySpace || inp.accelBtn) = true then PLAYER_ACCEL else 0)) *
          frameDt := by
  unfold prePhases
  obtain ⟨-, -, -, -, -, -, -, p8, -⟩ := spawnObjects_scalars r _ _
  rw [p8, applyMove_eagleZ, applyInput_eagleZ, applyInput_speed]
  rfl

theorem prePhases_eagleY_eq (inp : Input) (r : Rnd) (s : GameState) :
    (prePhases inp r s).eagleY = (applyInput inp (updateExplosions s)).eagleY := by
  unfold prePhases
  obtain ⟨-, -, -, -, -, -, p7, -⟩ := spawnObjects_scalars r _ _
  obtain ⟨-, -, -, -, -, -, m7, -⟩ := applyMove_scalars inp (applyInput inp (updateExplosions s))
  rw [p7, m7]

theorem prePhases_eagleX_eq (inp : Input) (r : Rnd) (s : GameState) :
    (prePhases inp r s).eagleX = (applyInput inp (updateExplosions s)).eagleX := by
  unfold prePhases
  obtain ⟨-, -, -, -, -, p6, -⟩ := spawnObjects_scalars r _ _
  obtain ⟨-, -, -, -, -, m6, -⟩ := applyMove_scalars inp (applyInput inp (updateExplosions s))
  rw [p6, m6]

theorem prePhases_y (inp : Input) (r : Rnd) (s : GameState) :
    1 ≤ (prePhases inp r s).eagleY ∧ (prePhases inp r s).eagleY ≤ 50 := by
  rw [prePhases_eagleY_eq]
  exact applyInput_y inp (updateExplosions s)

theorem prePhases_x (inp : Input) (r : Rnd) (s : GameState) :
    -100 ≤ (prePhases inp r s).eagleX ∧ (prePhases inp r s).eagleX ≤ 100 := by
  rw [prePhases_eagleX_eq]
  exact applyInput_x inp (updateExplosions s)

theorem preMove_objects (inp : Input) (s : GameState) :
    (applyMove inp (applyInput inp (updateExplosions s))).objects = s.objects := by
  obtain ⟨-, -, -, -, -, -, -, m8, -⟩ :=
    applyMove_scalars inp (applyInput inp (updateExplosions s))
  rw [m8, applyInput_objects]
  rfl

/-! ### Tick-level lemmas -/

theorem animate_misses_mono (sq sn : ℚ → ℚ) (inp : Input) (r : Rnd)
    (s : GameState) : s.misses ≤ (animate sq sn inp r s).misses := by
  by_cases hp : s.isPaused = true
  · rw [animate_paused sq sn inp r hp]
  · replace hp : s.isPaused = false := by simpa using hp
    by_cases hr : s.isRunning = true
    · rw [animate_run sq sn inp r hp hr]
      have h1 := prePhases_misses inp r s
      have h2 : (prePhases inp r s).misses ≤
          (updateObjects sn (prePhases inp r s)).misses := by
        rw [(updateObjects_proj sn _).1]
        exact missLoopAux_misses_mono _ _
      have h3 := (checkCollisions_proj sq (updateObjects sn (prePhases inp r s))).1
      rw [h3, checkLoopAux_misses]
      omega
    · replace hr : s.isRunning = false := by simpa using hr
      rw [animate_idle sq sn inp r hp hr]
      exact le_of_eq rfl

theorem animate_pres_M (sq sn : ℚ → ℚ) (inp : Input) (r : Rnd) {s : GameState}
    (h : 3 ≤ s.misses → s.gameOver = true) :
    3 ≤ (animate sq sn inp r s).misses → (animate sq sn inp r s).gameOver = true := by
  by_cases hp : s.isPaused = true
  · rw [animate_paused sq sn inp r hp]; exact h
  · replace hp : s.isPaused = false := by simpa using hp
    by_cases hr : s.isRunning = true
    · rw [animate_run sq sn inp r hp hr]
      have hA : 3 ≤ (prePhases inp r s).misses → (prePhases inp r s).gameOver = true := by
        intro h3
        rw [prePhases_misses] at h3
        rw [prePhases_gameOver]
        exact h h3
      have hB : 3 ≤ (updateObjects sn (prePhases inp r s)).misses →
          (updateObjects sn (prePhases inp r s)).gameOver = true := by
        intro h3
        rw [(updateObjects_proj sn _).1] at h3
        rw [(updateObjects_proj sn _).2.2.1]
        exact missLoopAux_pres_M _ hA h3
      intro h3
      rw [(checkCollisions_proj sq _).1] at h3
      rw [(checkCollisions_proj sq _).2.2.1]
      exact checkLoopAux_pres_M sq _ hB h3
    · replace hr : s.isRunning = false := by simpa using hr
      rw [animate_idle sq sn inp r hp hr]
      exact h

theorem animate_pres_G (sq sn : ℚ → ℚ) (inp : Input) (r : Rnd) {s : GameState}
    (h : s.gameOver = true → s.isRunning = false) :
    (animate sq sn inp r s).gameOver = true →
      (animate sq sn inp r s).isRunning = false := by
  by_cases hp : s.isPaused = true
  · rw [animate_paused sq sn inp r hp]; exact h
  · replace hp : s.isPaused = false := by simpa using hp
    by_cases hr : s.isRunning = true
    · rw [animate_run sq sn inp r hp hr]
      have hA : (prePhases inp r s).gameOver = true →
          (prePhases inp r s).isRunning = false := by
        intro h3
        rw [prePhases_gameOver] at h3
        rw [prePhases_isRunning]
        exact h h3
      have hB : (updateObjects sn (prePhases inp r s)).gameOver = true →
          (updateObjects sn (prePhases inp r s)).isRunning = false := by
        intro h3
        rw [(updateObjects_proj sn _).2.2.1] at h3
        rw [(updateObjects_proj sn _).2.2.2.1]
        exact missLoopAux_pres_G _ hA h3
      intro h3
      rw [(checkCollisions_proj sq _).2.2.1] at h3
      rw [(checkCollisions_proj sq _).2.2.2.1]
      exact checkLoopAux_pres_G sq _ hB h3
    · replace hr : s.isRunning = false := by simpa using hr
      rw [animate_idle sq sn inp r hp hr]
      exact h

theorem updateObjects_cueRel (sn : ℚ → ℚ) (s : GameState) :
    CueRel s (updateObjects sn s) := by
  obtain ⟨-, -, pg, -, -, -, -, -, -, -, pec, pcr, pgm⟩ := updateObjects_proj sn s
  rcases missLoopAux_cueRel s.objects s with ⟨e1, e2, e3, e4⟩ | ⟨f1, f2, f3, f4, f5⟩
  · exact Or.inl ⟨pg.trans e1, pcr.trans e2, pgm.trans e3, pec.trans e4⟩
  · exact Or.inr ⟨f1, pg.trans f2, pcr.trans f3, pgm.trans f4, pec.trans f5⟩

theorem checkCollisions_cueRel (sq : ℚ → ℚ) (s : GameState) :
    CueRel s (checkCollisions sq s) := by
  obtain ⟨-, -, pg, -, -, -, -, -, -, -, pec, pcr, pgm⟩ := checkCollisions_proj sq s
  rcases checkLoopAux_cueRel sq s.objects s with ⟨e1, e2, e3, e4⟩ | ⟨f1, f2, f3, f4, f5⟩
  · exact Or.inl ⟨pg.trans e1, pcr.trans e2, pgm.trans e3, pec.trans e4⟩
  · exact Or.inr ⟨f1, pg.trans f2, pcr.trans f3, pgm.trans f4, pec.trans f5⟩

theorem animate_cueRel (sq sn : ℚ → ℚ) (inp : Input) (r : Rnd) (s : GameState) :
    CueRel s (animate sq sn inp r s) := by
  by_cases hp : s.isPaused = true
  · rw [animate_paused sq sn inp r hp]; exact cueRel_refl s
  · replace hp : s.isPaused = false := by simpa using hp
    by_cases hr : s.isRunning = true
    · rw [animate_run sq sn inp r hp hr]
      have h1 : CueRel s (prePhases inp r s) := by
        obtain ⟨c1, c2, c3⟩ := prePhases_cues inp r s
        exact Or.inl ⟨prePhases_gameOver inp r s, c2, c3, c1⟩
      exact cueRel_trans _ _ _ h1 (cueRel_trans _ _ _ (updateObjects_cueRel sn _)
        (checkCollisions_cueRel sq _))
    · replace hr : s.isRunning = false := by simpa using hr
      rw [animate_idle sq sn inp r hp hr]
      exact Or.inl ⟨rfl, rfl, rfl, rfl⟩

theorem animate_eagleZ (sq sn : ℚ → ℚ) (inp : Input) (r : Rnd) {s : GameState}
    (h1 : s.isPaused = false) (h2 : s.isRunning = true) :
    (animate sq sn inp r s).eagleZ =
      s.eagleZ -
        (s.speed + (if (inp.keySpace || inp.accelBtn) = true then PLAYER_ACCEL else 0)) *
          frameDt := by
  rw [animate_run sq sn inp r h1 h2,
    (checkCollisions_proj sq _).2.2.2.2.2.2.2.1, checkLoopAux_eagleZ,
    (updateObjects_proj sn _).2.2.2.2.2.2.2.1, missLoopAux_eagleZ,
    prePhases_eagleZ]

theorem animate_y (sq sn : ℚ → ℚ) (inp : Input) (r : Rnd) {s : GameState}
    (h1 : s.isPaused = false) (h2 : s.isRunning = true) :
    1 ≤ (animate sq sn inp r s).eagleY ∧ (animate sq sn inp r s).eagleY ≤ 50 := by
  rw [animate_run sq sn inp r h1 h2,
    (checkCollisions_proj sq _).2.2.2.2.2.2.1, checkLoopAux_eagleY,
    (updateObjects_proj sn _).2.2.2.2.2.2.1, missLoopAux_eagleY]
  exact prePhases_y inp r s

theorem collideStep_eq_inactive (sq : ℚ → ℚ) (s : GameState) {o : Obj}
    (h : o.active = false) : collideStep sq s o = (s, o) := by
  simp [collideStep, h]

theorem collideStep_eq_far (sq : ℚ → ℚ) (s : GameState) {o : Obj}
    (h : ¬(|o.z - s.eagleZ| < 5)) : collideStep sq s o = (s, o) := by
  by_cases ha : o.active = false
  · simp [collideStep, ha]
  · simp only [Bool.not_eq_false] at ha
    simp [collideStep, ha, h]

theorem collideStep_eq_hoop (sq : ℚ → ℚ) (s : GameState) {o : Obj}
    (ha : o.active = true) (h5 : |o.z - s.eagleZ| < 5)
    (ht : o.type = ObjType.hoop) :
    collideStep sq s o =
      (if (o.x - s.eagleX) * (o.x - s.eagleX) + (o.y - s.eagleY) * (o.y - s.eagleY) <
          HOOP_RADIUS * HOOP_RADIUS then
        if |o.z - s.eagleZ| < 1 then
          ({ s with score := s.score + 1,
                    collectSoundPlays := s.collectSoundPlays + 1,
                    speed := min (s.speed + 1) PLAYER_SPEED_MAX },
           { o with passed := true, active := false, color := 0x00FF00 })
        else (s, o)
      else (s, o)) := by
  simp [collideStep, ha, h5, ht]

theorem collideStep_eq_wall (sq : ℚ → ℚ) (s : GameState) {o : Obj}
    (ha : o.active = true) (h5 : |o.z - s.eagleZ| < 5)
    (ht : o.type = ObjType.wall) :
    collideStep sq s o =
      (if |o.x - s.eagleX| < 10 ∧ |o.y - s.eagleY| < 15/2 then (gameOver s, o)
       else (s, o)) := by
  simp [collideStep, ha, h5, ht]

theorem collideStep_eq_log (sq : ℚ → ℚ) (s : GameState) {o : Obj}
    (ha : o.active = true) (h5 : |o.z - s.eagleZ| < 5)
    (ht : o.type = ObjType.log) :
    collideStep sq s o =
      (if |o.x - s.eagleX| < 15 ∧ |o.y - s.eagleY| < 2 then (gameOver s, o)
       else (s, o)) := by
  simp [collideStep, ha, h5, ht]

theorem collideStep_eq_fan (sq : ℚ → ℚ) (s : GameState) {o : Obj}
    (ha : o.active = true) (h5 : |o.z - s.eagleZ| < 5)
    (ht : o.type = ObjType.fan) :
    collideStep sq s o =
      (if (o.x - s.eagleX) * (o.x - s.eagleX) + (o.y - s.eagleY) * (o.y - s.eagleY) <
          100 then
        ({ s with eagleX := s.eagleX + o.force * frameDt *
            (1 - sq ((o.x - s.eagleX) * (o.x - s.eagleX) +
              (o.y - s.eagleY) * (o.y - s.eagleY)) / 10) }, o)
       else (s, o)) := by
  simp [collideStep, ha, h5, ht]

theorem collideStep_xbound (sq : ℚ → ℚ) (hsq : SqrtSpec sq) (s : GameState)
    (o : Obj) (hP : -100 ≤ s.eagleX ∧ s.eagleX ≤ 100) (hQ : FanOK o) :
    -100 ≤ (collideStep sq s o).1.eagleX ∧ (collideStep sq s o).1.eagleX ≤ 100 := by
  by_cases ha : o.active = false
  · rw [collideStep_eq_inactive sq s ha]
    exact hP
  · simp only [Bool.not_eq_false] at ha
    by_cases h5 : |o.z - s.eagleZ| < 5
    · cases htype : o.type with
      | hoop =>
        rw [collideStep_eq_hoop sq s ha h5 htype]
        repeat' split
        all_goals exact hP
      | wall =>
        rw [collideStep_eq_wall sq s ha h5 htype]
        split
        · show -100 ≤ (gameOver s).eagleX ∧ (gameOver s).eagleX ≤ 100
          rw [gameOver_eagleX]
          exact hP
        · exact hP
      | log =>
        rw [collideStep_eq_log sq s ha h5 htype]
        split
        · show -100 ≤ (gameOver s).eagleX ∧ (gameOver s).eagleX ≤ 100
          rw [gameOver_eagleX]
          exact hP
        · exact hP
      | fan =>
        rw [collideStep_eq_fan sq s ha h5 htype]
        split
        · next hd =>
          obtain ⟨hf, hx⟩ := hQ htype
          obtain ⟨hu0, husq⟩ := hsq ((o.x - s.eagleX) * (o.x - s.eagleX) +
            (o.y - s.eagleY) * (o.y - s.eagleY))
          have hy2 : 0 ≤ (o.y - s.eagleY) * (o.y - s.eagleY) := mul_self_nonneg _
          have hx2 : 0 ≤ (o.x - s.eagleX) * (o.x - s.eagleX) := mul_self_nonneg _
          rw [max_eq_left (by linarith)] at husq
          have hu10 : sq ((o.x - s.eagleX) * (o.x - s.eagleX) +
              (o.y - s.eagleY) * (o.y - s.eagleY)) < 10 := by nlinarith
          have hdxlt : o.x - s.eagleX < 10 := by nlinarith
          have hxgt : -40 < s.eagleX := by linarith
          have hpush1 : o.force * frameDt * (1 - sq ((o.x - s.eagleX) * (o.x - s.eagleX) +
              (o.y - s.eagleY) * (o.y - s.eagleY)) / 10) ≤ 0 := by
            simp only [hf, frameDt]
            linarith
          have hpush2 : -(12/25) ≤ o.force * frameDt *
              (1 - sq ((o.x - s.eagleX) * (o.x - s.eagleX) +
                (o.y - s.eagleY) * (o.y - s.eagleY)) / 10) := by
            simp only [hf, frameDt]
            linarith
          constructor
          · show -100 ≤ s.eagleX + o.force * frameDt *
              (1 - sq ((o.x - s.eagleX) * (o.x - s.eagleX) +
                (o.y - s.eagleY) * (o.y - s.eagleY)) / 10)
            linarith
          · show s.eagleX + o.force * frameDt *
              (1 - sq ((o.x - s.eagleX) * (o.x - s.eagleX) +
                (o.y - s.eagleY) * (o.y - s.eagleY)) / 10) ≤ 100
            linarith
        · exact hP
    · rw [collideStep_eq_far sq s h5]
      exact hP

theorem hoopConsistent_of_flags {o : Obj} (hp : o.passed = false)
    (hm : o.missed = false) : HoopConsistent o :=
  ⟨fun h => absurd h (by simp [hp]), fun h => absurd h (by simp [hm]),
   fun h => absurd h.1 (by simp [hp])⟩

theorem spawnHoop_fanOK (x y z : ℚ) : FanOK (spawnHoop x y z) :=
  fun h => absurd h (by simp [spawnHoop])

theorem spawnedObstacle_fanOK (r : Rnd) (x y z : ℚ) (hx : -40 ≤ x) :
    FanOK (spawnedObstacle r x y z) := by
  unfold spawnedObstacle
  split
  · intro h
    exact absurd h (by simp [spawnWall])
  · split
    · intro _
      refine ⟨rfl, ?_⟩
      show -30 ≤ x + 10
      linarith
    · intro h
      exact absurd h (by simp [spawnLog])

theorem spawnHoop_hoopCons (x y z : ℚ) : HoopConsistent (spawnHoop x y z) :=
  hoopConsistent_of_flags rfl rfl

theorem spawnedObstacle_hoopCons (r : Rnd) (x y z : ℚ) :
    HoopConsistent (spawnedObstacle r x y z) := by
  unfold spawnedObstacle
  repeat' split
  all_goals exact hoopConsistent_of_flags rfl rfl

theorem animate_objs (sq sn : ℚ → ℚ) (inp : Input) (r : Rnd) (s : GameState)
    (Q : Obj → Prop) (hrx : 0 ≤ r.rx)
    (hmiss : ∀ a o, Q o → Q (missStep a o).2)
    (hcoll : ∀ a o, Q o → Q (collideStep sq a o).2)
    (hbeh : ∀ px o, Q o → Q (behaviorStep sn px o))
    (hh : ∀ x y z, Q (spawnHoop x y z))
    (hob : ∀ x y z, -40 ≤ x → Q (spawnedObstacle r x y z))
    (hq : ∀ o ∈ s.objects, Q o) :
    ∀ o1 ∈ (animate sq sn inp r s).objects, Q o1 := by
  by_cases hp : s.isPaused = true
  · rw [animate_paused sq sn inp r hp]
    exact hq
  · replace hp : s.isPaused = false := by simpa using hp
    by_cases hr : s.isRunning = true
    · rw [animate_run sq sn inp r hp hr]
      have hA : ∀ o ∈ (prePhases inp r s).objects, Q o := by
        unfold prePhases
        refine spawnObjects_objs Q r _ _ ?_ (hh _ _ _) (hob _ _ _ (by linarith))
        rw [preMove_objects]
        exact hq
      have hB : ∀ o ∈ (updateObjects sn (prePhases inp r s)).objects, Q o := by
        rw [updateObjects_objects]
        exact updateLoop_objs sn _ _ Q (fun o ho => hbeh _ o ho) _
          (missLoopAux_objs Q hmiss _ _ hA)
      rw [checkCollisions_objects]
      exact checkLoopAux_objs sq Q hcoll _ _ hB
    · replace hr : s.isRunning = false := by simpa using hr
      rw [animate_idle sq sn inp r hp hr]
      exact hq

theorem animate_x (sq sn : ℚ → ℚ) (inp : Input) (r : Rnd) {s : GameState}
    (hsq : SqrtSpec sq) (h1 : s.isPaused = false) (h2 : s.isRunning = true)
    (hrx : 0 ≤ r.rx) (hobj : ∀ o ∈ s.objects, FanOK o) :
    -100 ≤ (animate sq sn inp r s).eagleX ∧
      (animate sq sn inp r s).eagleX ≤ 100 := by
  rw [animate_run sq sn inp r h1 h2, (checkCollisions_proj sq _).2.2.2.2.2.1]
  refine checkLoopAux_pred sq (fun t => -100 ≤ t.eagleX ∧ t.eagleX ≤ 100) FanOK
    (fun a o hPa hQo => collideStep_xbound sq hsq a o hPa hQo) _ _ ?_ ?_
  · show -100 ≤ (updateObjects sn (prePhases inp r s)).eagleX ∧
      (updateObjects sn (prePhases inp r s)).eagleX ≤ 100
    rw [(updateObjects_proj sn _).2.2.2.2.2.1, missLoopAux_eagleX]
    exact prePhases_x inp r s
  · show ∀ o ∈ (updateObjects sn (prePhases inp r s)).objects, FanOK o
    rw [updateObjects_objects]
    refine updateLoop_objs sn _ _ FanOK
      (fun o ho => behaviorStep_fanOK sn _ o ho) _
      (missLoopAux_objs FanOK missStep_obj_fanOK _ _ ?_)
    unfold prePhases
    refine spawnObjects_objs FanOK r _ _ ?_ (spawnHoop_fanOK _ _ _)
      (spawnedObstacle_fanOK r _ _ _ (by linarith))
    rw [preMove_objects]
    exact hobj

theorem startGame_fields (s : GameState) :
    (startGame s).gameOver = false ∧ (startGame s).isRunning = true ∧
    (startGame s).objects = [] ∧ (startGame s).misses = 0 ∧
    (startGame s).isPaused = s.isPaused :=
  ⟨rfl, rfl, rfl, rfl, rfl⟩

theorem handleVisibilityChange_scalars (hid : Bool) (s : GameState) :
    (handleVisibilityChange hid s).gameOver = s.gameOver ∧
    (handleVisibilityChange hid s).isRunning = s.isRunning ∧
    (handleVisibilityChange hid s).objects = s.objects ∧
    (handleVisibilityChange hid s).misses = s.misses := by
  obtain ⟨t1, t2, t3, t4, t5, t6⟩ := togglePause_scalars s
  simp only [handleVisibilityChange]
  repeat' split
  all_goals first
    | exact ⟨rfl, rfl, rfl, rfl⟩
    | exact ⟨t2, t1, t5, t3⟩

theorem reachable_G {s : GameState} (h : Reachable s) :
    s.gameOver = true → s.isRunning = false := by
  induction h with
  | init => intro h1; exact Bool.noConfusion h1
  | next e hs ih =>
    cases e with
    | tick sq sn inp r hr => exact animate_pres_G sq sn inp r ih
    | start =>
      intro h1
      simp only [stepEv] at h1
      rw [(startGame_fields _).1] at h1
      exact Bool.noConfusion h1
    | pauseKey =>
      intro h1
      simp only [stepEv] at h1 ⊢
      obtain ⟨t1, t2, -⟩ := togglePause_scalars _
      rw [t2] at h1
      rw [t1]
      exact ih h1
    | visibility hid =>
      intro h1
      simp only [stepEv] at h1 ⊢
      obtain ⟨v1, v2, -⟩ := handleVisibilityChange_scalars hid _
      rw [v1] at h1
      rw [v2]
      exact ih h1

theorem reachable_fanOK {s : GameState} (h : Reachable s) :
    ∀ o ∈ s.objects, FanOK o := by
  induction h with
  | init => intro o ho; exact absurd ho (by simp [initialState])
  | next e hs ih =>
    cases e with
    | tick sq sn inp r hr =>
      exact animate_objs sq sn inp r _ FanOK hr.1 missStep_obj_fanOK
        (fun a o => collideStep_obj_fanOK sq a o)
        (fun px o => behaviorStep_fanOK sn px o) spawnHoop_fanOK
        (fun x y z hx => spawnedObstacle_fanOK r x y z hx) ih
    | start =>
      intro o ho
      simp only [stepEv] at ho
      rw [(startGame_fields _).2.2.1] at ho
      exact absurd ho (by simp)
    | pauseKey =>
      intro o ho
      simp only [stepEv] at ho
      obtain ⟨-, -, -, -, t5, -⟩ := togglePause_scalars _
      rw [t5] at ho
      exact ih o ho
    | visibility hid =>
      intro o ho
      simp only [stepEv] at ho
      obtain ⟨-, -, v3, -⟩ := handleVisibilityChange_scalars hid _
      rw [v3] at ho
      exact ih o ho

theorem reachable_hoopCons {s : GameState} (h : Reachable s) :
    ∀ o ∈ s.objects, HoopConsistent o := by
  induction h with
  | init => intro o ho; exact absurd ho (by simp [initialState])
  | next e hs ih =>
    cases e with
    | tick sq sn inp r hr =>
      exact animate_objs sq sn inp r _ HoopConsistent hr.1
        missStep_obj_hoopCons (fun a o => collideStep_obj_hoopCons sq a o)
        (fun px o => behaviorStep_hoopCons sn px o) spawnHoop_hoopCons
        (fun x y z _ => spawnedObstacle_hoopCons r x y z) ih
    | start =>
      intro o ho
      simp only [stepEv] at ho
      rw [(startGame_fields _).2.2.1] at ho
      exact absurd ho (by simp)
    | pauseKey =>
      intro o ho
      simp only [stepEv] at ho
      obtain ⟨-, -, -, -, t5, -⟩ := togglePause_scalars _
      rw [t5] at ho
      exact ih o ho
    | visibility hid =>
      intro o ho
      simp only [stepEv] at ho
      obtain ⟨-, -, v3, -⟩ := handleVisibilityChange_scalars hid _
      rw [v3] at ho
      exact ih o ho

/-! ### Claims -/

theorem sqZero_spec : SqrtSpec sqZero := by
  intro q
  constructor
  · simp [sqZero]
  · simp [sqZero]

theorem tyNe_hw : (ObjType.hoop = ObjType.wall) = False := by simp
theorem tyNe_hf : (ObjType.hoop = ObjType.fan) = False := by simp
theorem tyNe_hl : (ObjType.hoop = ObjType.log) = False := by simp
theorem tyNe_wh : (ObjType.wall = ObjType.hoop) = False := by simp
theorem tyNe_wf : (ObjType.wall = ObjType.fan) = False := by simp
theorem tyNe_wl : (ObjType.wall = ObjType.log) = False := by simp
theorem tyNe_fh : (ObjType.fan = ObjType.hoop) = False := by simp
theorem tyNe_fw : (ObjType.fan = ObjType.wall) = False := by simp
theorem tyNe_fl : (ObjType.fan = ObjType.log) = False := by simp
theorem tyNe_lh : (ObjType.log = ObjType.hoop) = False := by simp
theorem tyNe_lw : (ObjType.log = ObjType.wall) = False := by simp
theorem tyNe_lf : (ObjType.log = ObjType.fan) = False := by simp

/-- Claim C2: while the game is running, `misses` is monotonically
non-decreasing across ticks; in any tick in which `misses` is incremented
to reach 3, `gameOver` becomes true within that same tick (stated as
preservation of the invariant `3 ≤ misses → gameOver`, which for a tick
starting below 3 misses yields exactly that); and in every reachable state
`gameOver = true` implies `isRunning = false`. -/
theorem claimC2 :
    (∀ (sq sn : ℚ → ℚ) (inp : Input) (r : Rnd) (s : GameState),
      s.misses ≤ (animate sq sn inp r s).misses) ∧
    (∀ (sq sn : ℚ → ℚ) (inp : Input) (r : Rnd) (s : GameState),
      (3 ≤ s.misses → s.gameOver = true) →
      3 ≤ (animate sq sn inp r s).misses →
        (animate sq sn inp r s).gameOver = true) ∧
    (∀ s : GameState, Reachable s → s.gameOver = true → s.isRunning = false) :=
  ⟨fun sq sn inp r s => animate_misses_mono sq sn inp r s,
   fun sq sn inp r _ h => animate_pres_M sq sn inp r h,
   fun _ h => reachable_G h⟩

/-- Claim C2 witness: starting at two misses with a hoop behind the eagle,
the next tick reaches three misses and flips `gameOver` in the same tick. -/
theorem claimC2_witness :
    c2State.misses ≤ (animate sqZero snZero inp0 rnd0 c2State).misses ∧
    (animate sqZero snZero inp0 rnd0 c2State).gameOver = true := by
  obtain ⟨h1, h2, -⟩ := claimC2
  refine ⟨h1 sqZero snZero inp0 rnd0 c2State, ?_⟩
  refine h2 sqZero snZero inp0 rnd0 c2State ?_ ?_
  · intro h3
    exact absurd h3 (by norm_num [c2State, runState, initialState])
  · norm_num [animate, prePhases, updateExplosions, applyInput, applyMove,
      spawnObjects, spawnedObstacle, spawnHoop, obstacleChance, updateObjects,
      missLoopAux, missStep, updateLoop, behaviorStep, checkCollisions,
      checkLoopAux, collideStep, setIntensity, gameOver, createExplosion,
      sqZero, snZero, inp0, rnd0, runState, initialState, c2Hoop, c2State,
      HOOP_RADIUS, HOOP_SPAWN_INTERVAL, SPAWN_DISTANCE, REMOVE_DISTANCE,
      PLAYER_SPEED_BASE, PLAYER_SPEED_MAX, PLAYER_ACCEL, PLAYER_TURN_SPEED,
      frameDt, abs_lt, tyNe_hw, tyNe_hf, tyNe_hl, tyNe_wh, tyNe_wf, tyNe_wl,
      tyNe_fh, tyNe_fw, tyNe_fl, tyNe_lh, tyNe_lw, tyNe_lf]

/-- Claim C6: the `gameOver` transition is idempotent — with the flag
already set it changes nothing, and a first invocation sets
`gameOver = true`, `isRunning = false`, appends exactly one explosion at
the eagle's last position, hides the eagle and plays each terminal audio
cue exactly once; across one whole tick, no matter how many triggers fire,
each terminal effect happens exactly once if the flag flips and not at all
otherwise (`CueRel`). -/
theorem claimC6 :
    (∀ s : GameState, s.gameOver = true → gameOver s = s) ∧
    (∀ s : GameState, s.gameOver = false →
      gameOver s = { s with
        gameOver := true
        isRunning := false
        explosions := s.explosions ++ [⟨s.eagleX, s.eagleY, s.eagleZ, 2⟩]
        explosionsCreated := s.explosionsCreated + 1
        eagleVisible := false
        crashSoundPlays := s.crashSoundPlays + 1
        gameOverMusicPlays := s.gameOverMusicPlays + 1
        intensity := 1
        tempo := 60 }) ∧
    (∀ s : GameState, gameOver (gameOver s) = gameOver s) ∧
    (∀ (sq sn : ℚ → ℚ) (inp : Input) (r : Rnd) (s : GameState),
      CueRel s (animate sq sn inp r s)) := by
  refine ⟨fun s h => gameOver_of_over h, ?_,
    fun s => gameOver_of_over (gameOver_gameOver s),
    fun sq sn inp r s => animate_cueRel sq sn inp r s⟩
  intro s h
  simp [gameOver, createExplosion, h]

/-- Claim C6 witness: invoking `gameOver` on a state already over is the
identity, and a first invocation creates exactly one explosion and plays
the crash cue exactly once. -/
theorem claimC6_witness :
    gameOver overState = overState ∧
    (gameOver runState).explosionsCreated = runState.explosionsCreated + 1 ∧
    (gameOver runState).crashSoundPlays = runState.crashSoundPlays + 1 := by
  obtain ⟨h1, h2, -⟩ := claimC6
  refine ⟨h1 overState rfl, ?_, ?_⟩
  · rw [h2 runState rfl]
  · rw [h2 runState rfl]

/-- Claim C9 (counterexample): the frame step of `animate` is the hardcoded
`dt = 0.016`, not `1/60`; at speed 50 without accelerating the longitudinal
position decreases by exactly 0.8 per tick, not by `50/60 ≈ 0.833` as the
claim's scenario asserts. -/
theorem claimC9_counterexample :
    runState.speed = 50 ∧ runState.eagleZ = 0 ∧
    runState.isRunning = true ∧ runState.isPaused = false ∧
    (animate sqZero snZero inp0 rnd0 runState).eagleZ = -(4/5) ∧
    (-(4/5) : ℚ) ≠ 0 - 50 * (1/60) := by
  refine ⟨rfl, rfl, rfl, rfl, ?_, by norm_num⟩
  norm_num [animate, prePhases, updateExplosions, applyInput, applyMove,
    spawnObjects, spawnedObstacle, spawnHoop, obstacleChance, updateObjects,
    missLoopAux, missStep, updateLoop, behaviorStep, checkCollisions,
    checkLoopAux, collideStep, setIntensity, gameOver, createExplosion,
    sqZero, snZero, inp0, rnd0, runState, initialState,
    HOOP_RADIUS, HOOP_SPAWN_INTERVAL, SPAWN_DISTANCE, REMOVE_DISTANCE,
    PLAYER_SPEED_BASE, PLAYER_SPEED_MAX, PLAYER_ACCEL, PLAYER_TURN_SPEED,
    frameDt, abs_lt]

/-- Claim C9 (amended): each running tick advances the eagle's longitudinal
position by `−currentSpeed·dt` with
`currentSpeed = state.speed + (PLAYER_ACCEL if accelerate else 0)`, where
`dt` is the fixed frame step 0.016 (not 1/60); at speed 50 without
accelerating the position decreases by exactly 0.8 per tick. -/
theorem claimC9_amended :
    (∀ (sq sn : ℚ → ℚ) (inp : Input) (r : Rnd) (s : GameState),
      s.isPaused = false → s.isRunning = true →
      (animate sq sn inp r s).eagleZ =
        s.eagleZ - (s.speed +
          (if (inp.keySpace || inp.accelBtn) = true then PLAYER_ACCEL else 0)) *
            frameDt) ∧
    frameDt = 2/125 :=
  ⟨fun sq sn inp r _ h1 h2 => animate_eagleZ sq sn inp r h1 h2, rfl⟩

/-- Claim C9 witness: the amended per-tick movement law evaluated on the
concrete base-speed state. -/
theorem claimC9_witness :
    (animate sqZero snZero inp0 rnd0 runState).eagleZ =
      runState.eagleZ - (runState.speed + 0) * frameDt := by
  obtain ⟨h, -⟩ := claimC9_amended
  rw [h sqZero snZero inp0 rnd0 runState rfl rfl]
  norm_num [inp0]

/-- Claim C1 (counterexample): the clamp at the top of the tick is applied
after input movement but before `checkCollisions`, so the fan push is NOT
covered by it: with the eagle pinned at the clamp border `x = −100` and a
fan in range, the tick ends at `x = −100.48`, outside the claimed box.
(`sqZero` satisfies the square-root specification and agrees with the real
square root at the evaluated point `distSq = 0`.) -/
theorem claimC1_counterexample :
    SqrtSpec sqZero ∧ c1State.isRunning = true ∧ c1State.isPaused = false ∧
    (animate sqZero snZero inp0 rnd0 c1State).eagleX = -2512/25 ∧
    (animate sqZero snZero inp0 rnd0 c1State).eagleX < -100 := by
  refine ⟨sqZero_spec, rfl, rfl, ?_, ?_⟩ <;>
    norm_num [animate, prePhases, updateExplosions, applyInput, applyMove,
      spawnObjects, spawnedObstacle, spawnHoop, obstacleChance, updateObjects,
      missLoopAux, missStep, updateLoop, behaviorStep, checkCollisions,
      checkLoopAux, collideStep, setIntensity, gameOver, createExplosion,
      sqZero, snZero, inp0, rnd0, runState, initialState, c1State, borderFan,
      HOOP_RADIUS, HOOP_SPAWN_INTERVAL, SPAWN_DISTANCE, REMOVE_DISTANCE,
      PLAYER_SPEED_BASE, PLAYER_SPEED_MAX, PLAYER_ACCEL, PLAYER_TURN_SPEED,
      frameDt, abs_lt, tyNe_hw, tyNe_hf, tyNe_hl, tyNe_wh, tyNe_wf, tyNe_wl,
      tyNe_fh, tyNe_fw, tyNe_fl, tyNe_lh, tyNe_lw, tyNe_lf]

/-- Claim C1 (amended): after every running unpaused tick the eagle's
`y ∈ [1,50]` holds unconditionally (the clamp runs before anything else can
move `y`); the clamp precedes the fan push, so `x ∈ [-100,100]` at the end
of the tick is instead guaranteed whenever every fan in the state is
spawn-shaped (`FanOK`: force −30 and `x ≥ −30`) — which holds in every
reachable state, since `spawnFan` only creates such fans and nothing moves
a fan laterally. -/
theorem claimC1_amended :
    (∀ (sq sn : ℚ → ℚ) (inp : Input) (r : Rnd) (s : GameState),
      s.isPaused = false → s.isRunning = true →
      1 ≤ (animate sq sn inp r s).eagleY ∧ (animate sq sn inp r s).eagleY ≤ 50) ∧
    (∀ (sq sn : ℚ → ℚ) (inp : Input) (r : Rnd) (s : GameState),
      SqrtSpec sq → s.isPaused = false → s.isRunning = true → 0 ≤ r.rx →
      (∀ o ∈ s.objects, FanOK o) →
      -100 ≤ (animate sq sn inp r s).eagleX ∧
        (animate sq sn inp r s).eagleX ≤ 100) ∧
    (∀ s : GameState, Reachable s → ∀ o ∈ s.objects, FanOK o) :=
  ⟨fun sq sn inp r _ h1 h2 => animate_y sq sn inp r h1 h2,
   fun sq sn inp r _ hsq h1 h2 hrx hobj =>
     animate_x sq sn inp r hsq h1 h2 hrx hobj,
   fun _ h => reachable_fanOK h⟩

/-- Claim C1 witness: the amended bounds instantiated on the concrete
running state (no objects, eagle at height 10). -/
theorem claimC1_witness :
    (1 ≤ (animate sqZero snZero inp0 rnd0 runState).eagleY ∧
      (animate sqZero snZero inp0 rnd0 runState).eagleY ≤ 50) ∧
    (-100 ≤ (animate sqZero snZero inp0 rnd0 runState).eagleX ∧
      (animate sqZero snZero inp0 rnd0 runState).eagleX ≤ 100) := by
  obtain ⟨h1, h2, -⟩ := claimC1_amended
  refine ⟨h1 sqZero snZero inp0 rnd0 runState rfl rfl, ?_⟩
  refine h2 sqZero snZero inp0 rnd0 runState sqZero_spec rfl rfl le_rfl ?_
  intro o ho
  exact absurd ho (by simp [runState, initialState])

/-- Claim C3: an active hoop checked in the collision phase scores exactly
when the squared lateral+vertical distance is below `HOOP_RADIUS²` and the
longitudinal distance is below 1.0; scoring marks it passed, deactivates
it, increments the score, plays the collect cue and raises the speed by 1
capped at `PLAYER_SPEED_MAX`; otherwise the check changes nothing.
Concretely, a centered hoop at longitudinal offset 0.5 scores and the same
hoop at offset 3 does not. -/
theorem claimC3 :
    (∀ (sq : ℚ → ℚ) (s : GameState) (o : Obj),
      o.type = ObjType.hoop → o.active = true →
      (((o.x - s.eagleX) * (o.x - s.eagleX) + (o.y - s.eagleY) * (o.y - s.eagleY) <
          HOOP_RADIUS * HOOP_RADIUS ∧ |o.z - s.eagleZ| < 1) →
        collideStep sq s o =
          ({ s with
              score := s.score + 1
              collectSoundPlays := s.collectSoundPlays + 1
              speed := min (s.speed + 1) PLAYER_SPEED_MAX },
           { o with passed := true, active := false, color := 0x00FF00 })) ∧
      (¬((o.x - s.eagleX) * (o.x - s.eagleX) + (o.y - s.eagleY) * (o.y - s.eagleY) <
          HOOP_RADIUS * HOOP_RADIUS ∧ |o.z - s.eagleZ| < 1) →
        collideStep sq s o = (s, o))) ∧
    ((collideStep sqZero runState c3HoopNear).1.score = 1 ∧
     (collideStep sqZero runState c3HoopNear).1.speed = 51 ∧
     (collideStep sqZero runState c3HoopNear).2.passed = true ∧
     (collideStep sqZero runState c3HoopNear).2.active = false) ∧
    collideStep sqZero runState c3HoopFar = (runState, c3HoopFar) := by
  refine ⟨?_, ?_, ?_⟩
  · intro sq s o ht ha
    constructor
    · rintro ⟨hd, hz⟩
      have h5 : |o.z - s.eagleZ| < 5 := lt_trans hz (by norm_num)
      rw [collideStep_eq_hoop sq s ha h5 ht, if_pos hd, if_pos hz]
    · intro hn
      by_cases h5 : |o.z - s.eagleZ| < 5
      · rw [collideStep_eq_hoop sq s ha h5 ht]
        by_cases hd : (o.x - s.eagleX) * (o.x - s.eagleX) +
            (o.y - s.eagleY) * (o.y - s.eagleY) < HOOP_RADIUS * HOOP_RADIUS
        · rw [if_pos hd, if_neg (fun hz => hn ⟨hd, hz⟩)]
        · rw [if_neg hd]
      · exact collideStep_eq_far sq s h5
  · norm_num [collideStep, runState, initialState, c3HoopNear, sqZero,
      HOOP_RADIUS, PLAYER_SPEED_MAX, PLAYER_SPEED_BASE, min_def, abs_lt,
      tyNe_hw, tyNe_hf, tyNe_hl]
  · rw [@collideStep_eq_hoop sqZero runState c3HoopFar rfl
      (by norm_num [c3HoopFar, runState, initialState, abs_lt]) rfl,
      if_pos (by norm_num [c3HoopFar, runState, initialState, HOOP_RADIUS]),
      if_neg (by norm_num [c3HoopFar, runState, initialState, abs_lt])]

/-- Claim C4: a hoop contributes to the score at most once — a deactivated
(in particular, passed) hoop is skipped entirely by the collision check,
and once a check has marked a hoop passed, any further check on it leaves
the state (score, speed, everything) and the hoop unchanged. -/
theorem claimC4 :
    ∀ (sq : ℚ → ℚ) (s s2 : GameState) (o : Obj), o.type = ObjType.hoop →
      (o.passed = true → o.active = false) →
      ((o.active = false → collideStep sq s o = (s, o)) ∧
       ((collideStep sq s o).2.passed = true →
         collideStep sq s2 (collideStep sq s o).2 =
           (s2, (collideStep sq s o).2))) := by
  intro sq s s2 o ht hpa
  refine ⟨fun ha => collideStep_eq_inactive sq s ha, ?_⟩
  intro hp
  have key : (collideStep sq s o).2.active = false := by
    by_cases ha : o.active = false
    · rw [collideStep_eq_inactive sq s ha] at hp ⊢
      exact hpa hp
    · simp only [Bool.not_eq_false] at ha
      by_cases h5 : |o.z - s.eagleZ| < 5
      · rw [collideStep_eq_hoop sq s ha h5 ht] at hp ⊢
        by_cases hd : (o.x - s.eagleX) * (o.x - s.eagleX) +
            (o.y - s.eagleY) * (o.y - s.eagleY) < HOOP_RADIUS * HOOP_RADIUS
        · by_cases hz : |o.z - s.eagleZ| < 1
          · rw [if_pos hd, if_pos hz]
          · rw [if_pos hd, if_neg hz] at hp ⊢
            exact absurd (hpa hp) (by simp [ha])
        · rw [if_neg hd] at hp ⊢
          exact absurd (hpa hp) (by simp [ha])
      · rw [collideStep_eq_far sq s h5] at hp ⊢
        exact absurd (hpa hp) (by simp [ha])
  exact collideStep_eq_inactive sq s2 key

/-- Claim C4 witness: the hoop scored by one concrete check is left
untouched, together with the score and speed, by a further check. -/
theorem claimC4_witness :
    collideStep sqZero runState (collideStep sqZero runState c3HoopNear).2 =
      (runState, (collideStep sqZero runState c3HoopNear).2) := by
  refine (claimC4 sqZero runState runState c3HoopNear rfl
    (fun hh => Bool.noConfusion hh)).2 ?_
  norm_num [collideStep, runState, initialState, c3HoopNear, sqZero,
    HOOP_RADIUS, PLAYER_SPEED_MAX, abs_lt, tyNe_hw, tyNe_hf, tyNe_hl]

/-- Claim C5: hiding the page while running, unpaused and not over pauses
the game and sets the auto-pause flag; becoming visible with the flag set
(paused, running, not over) unpauses and clears the flag; a manual pause
followed by a hidden-then-visible sequence does not auto-resume, because
the flag was never set; and the manual toggle is a no-op when the game is
not running or already over. -/
theorem claimC5 :
    (∀ s : GameState, s.isRunning = true → s.isPaused = false →
      s.gameOver = false →
      (handleVisibilityChange true s).isPaused = true ∧
      (handleVisibilityChange true s).wasAutoPausedByVisibility = true ∧
      (handleVisibilityChange true s).isRunning = true) ∧
    (∀ s : GameState, s.wasAutoPausedByVisibility = true → s.isPaused = true →
      s.isRunning = true → s.gameOver = false →
      (handleVisibilityChange false s).isPaused = false ∧
      (handleVisibilityChange false s).wasAutoPausedByVisibility = false ∧
      (handleVisibilityChange false s).isRunning = true) ∧
    (∀ s : GameState, s.isRunning = true → s.isPaused = false →
      s.gameOver = false → s.wasAutoPausedByVisibility = false →
      handleVisibilityChange false (handleVisibilityChange true (togglePause s)) =
        togglePause s ∧ (togglePause s).isPaused = true) ∧
    (∀ s : GameState, s.isRunning = false ∨ s.gameOver = true →
      togglePause s = s) := by
  refine ⟨?_, ?_, ?_, fun s h => togglePause_of_blocked h⟩
  · intro s hr hp hg
    simp [handleVisibilityChange, togglePause, pauseMusic, resumeMusic,
      hr, hp, hg]
  · intro s hw hp hr hg
    simp [handleVisibilityChange, togglePause, pauseMusic, resumeMusic,
      hw, hp, hr, hg]
  · intro s hr hp hg hw
    simp [handleVisibilityChange, togglePause, pauseMusic, resumeMusic,
      hr, hp, hg, hw]

/-- Claim C5 witness: the auto-pause/resume round trip and the
manual-pause no-auto-resume sequence evaluated on the concrete running
state, plus the no-op toggle on a finished game. -/
theorem claimC5_witness :
    (handleVisibilityChange true runState).isPaused = true ∧
    (handleVisibilityChange true runState).wasAutoPausedByVisibility = true ∧
    (handleVisibilityChange false (handleVisibilityChange true runState)).isPaused
      = false ∧
    (handleVisibilityChange false (handleVisibilityChange true runState)).isRunning
      = true ∧
    handleVisibilityChange false
        (handleVisibilityChange true (togglePause runState)) =
      togglePause runState ∧
    (togglePause runState).isPaused = true ∧
    togglePause overState = overState := by
  obtain ⟨h1, h2, h3, h4⟩ := claimC5
  obtain ⟨a1, a2, a3⟩ := h1 runState rfl rfl rfl
  have hg5 : (handleVisibilityChange true runState).gameOver = false := by
    rw [(handleVisibilityChange_scalars true runState).1]
    rfl
  obtain ⟨b1, b2, b3⟩ := h2 (handleVisibilityChange true runState) a2 a1 a3 hg5
  obtain ⟨c1, c2⟩ := h3 runState rfl rfl rfl rfl
  exact ⟨a1, a2, b1, b3, c1, c2, h4 overState (Or.inr rfl)⟩

theorem gameOver_intensity_eq (t : GameState) :
    (gameOver t).intensity = if t.gameOver then t.intensity else 1 := by
  by_cases h : t.gameOver = true
  · rw [gameOver_of_over h, if_pos h]
  · simp only [Bool.not_eq_true] at h
    simp [gameOver, createExplosion, h]

theorem gameOver_intensity_of_not {s : GameState} (h : s.gameOver = false) :
    (gameOver s).intensity = 1 := by
  simp [gameOver, createExplosion, h]

theorem gameOver_tempo_of_not {s : GameState} (h : s.gameOver = false) :
    (gameOver s).tempo = 60 := by
  simp [gameOver, createExplosion, h]

theorem missStep_intensity {s : GameState} {o : Obj}
    (hc : o.type = ObjType.hoop ∧ o.active ∧ o.passed = false ∧
      o.missed = false ∧ s.eagleZ + 1 < o.z) :
    (missStep s o).1.intensity =
      max 0 (min 1 (((s.misses + 1 : ℕ) : ℚ) / 3 + (s.score : ℚ) * (1/20))) := by
  simp only [missStep, if_pos hc]
  split
  · next h3 =>
    rw [gameOver_intensity_eq]
    split
    · rfl
    · have h3a : 3 ≤ s.misses + 1 := h3
      have hge : (3:ℚ) ≤ ((s.misses + 1 : ℕ) : ℚ) := by exact_mod_cast h3a
      have hsc : (0:ℚ) ≤ (s.score : ℚ) := Nat.cast_nonneg _
      have hone : (1:ℚ) ≤ ((s.misses + 1 : ℕ) : ℚ) / 3 +
          (s.score : ℚ) * (1/20) := by linarith
      rw [min_eq_left hone]
      norm_num
  · rfl

theorem missStep_misses_fire {s : GameState} {o : Obj}
    (hc : o.type = ObjType.hoop ∧ o.active ∧ o.passed = false ∧
      o.missed = false ∧ s.eagleZ + 1 < o.z) :
    (missStep s o).1.misses = s.misses + 1 := by
  simp only [missStep, if_pos hc]
  split
  · rw [gameOver_misses]
    rfl
  · rfl

/-- Claim C7 (counterexample): a pure scoring tick leaves the audio
intensity unchanged; it is NOT recomputed as `misses/3 + score·0.05` on
scoring events (`checkCollisions` never calls `setIntensity`).  Moreover
the game-over transition sets `tempo = 60` and `intensity = 1` directly,
so `tempo = 100 + intensity·60` does not always hold. -/
theorem claimC7_counterexample :
    (animate sqZero snZero inp0 rnd0 c7State).score = c7State.score + 1 ∧
    (animate sqZero snZero inp0 rnd0 c7State).misses = c7State.misses ∧
    (animate sqZero snZero inp0 rnd0 c7State).intensity = 1/3 ∧
    max 0 (min 1 (((animate sqZero snZero inp0 rnd0 c7State).misses : ℚ) / 3 +
      ((animate sqZero snZero inp0 rnd0 c7State).score : ℚ) * (1/20))) = 23/60 ∧
    (1/3 : ℚ) ≠ 23/60 ∧
    (gameOver runState).tempo = 60 ∧ (gameOver runState).intensity = 1 ∧
    (gameOver runState).tempo ≠ 100 + (gameOver runState).intensity * 60 := by
  refine ⟨?_, ?_, ?_, ?_, by norm_num, ?_, ?_, ?_⟩ <;>
    norm_num [animate, prePhases, updateExplosions, applyInput, applyMove,
      spawnObjects, spawnedObstacle, spawnHoop, obstacleChance, updateObjects,
      missLoopAux, missStep, updateLoop, behaviorStep, checkCollisions,
      checkLoopAux, collideStep, setIntensity, gameOver, createExplosion,
      sqZero, snZero, inp0, rnd0, runState, initialState, c7State,
      HOOP_RADIUS, HOOP_SPAWN_INTERVAL, SPAWN_DISTANCE, REMOVE_DISTANCE,
      PLAYER_SPEED_BASE, PLAYER_SPEED_MAX, PLAYER_ACCEL, PLAYER_TURN_SPEED,
      frameDt, min_def, abs_lt, tyNe_hw, tyNe_hf, tyNe_hl, tyNe_wh, tyNe_wf,
      tyNe_wl, tyNe_fh, tyNe_fw, tyNe_fl, tyNe_lh, tyNe_lw, tyNe_lf]

/-- Claim C7 (amended): `setIntensity` clamps its argument to `[0,1]` and
maintains `tempo = 100 + intensity·60`; every miss event recomputes the
intensity as `misses/3 + score·0.05` clamped (on the third miss the
game-over override also yields this value, namely 1); scoring events leave
intensity and tempo unchanged; and the game-over transition sets
`intensity = 1` and `tempo = 60` directly, breaking the tempo law. -/
theorem claimC7_amended :
    (∀ (level : ℚ) (s : GameState),
      (setIntensity level s).intensity = max 0 (min 1 level) ∧
      (setIntensity level s).tempo =
        100 + (setIntensity level s).intensity * 60) ∧
    (∀ (s : GameState) (o : Obj),
      o.type = ObjType.hoop ∧ o.active ∧ o.passed = false ∧
        o.missed = false ∧ s.eagleZ + 1 < o.z →
      (missStep s o).1.misses = s.misses + 1 ∧
      (missStep s o).1.intensity =
        max 0 (min 1 (((s.misses + 1 : ℕ) : ℚ) / 3 + (s.score : ℚ) * (1/20)))) ∧
    (∀ (sq : ℚ → ℚ) (s : GameState) (o : Obj), o.type = ObjType.hoop →
      (collideStep sq s o).1.intensity = s.intensity ∧
      (collideStep sq s o).1.tempo = s.tempo) ∧
    (∀ s : GameState, s.gameOver = false →
      (gameOver s).intensity = 1 ∧ (gameOver s).tempo = 60) :=
  ⟨fun _ _ => ⟨rfl, rfl⟩,
   fun _ _ hc => ⟨missStep_misses_fire hc, missStep_intensity hc⟩,
   fun sq s o ht => collideStep_intensity sq s o ht,
   fun _ h => ⟨gameOver_intensity_of_not h, gameOver_tempo_of_not h⟩⟩

/-- Claim C7 witness: the amended laws evaluated at concrete inputs — a
`setIntensity 1/2` call, the third-miss event of `c2State`, and the
game-over override. -/
theorem claimC7_witness :
    (setIntensity (1/2) runState).intensity = 1/2 ∧
    (setIntensity (1/2) runState).tempo = 130 ∧
    (missStep c2State c2Hoop).1.misses = 3 ∧
    (missStep c2State c2Hoop).1.intensity = 1 ∧
    (gameOver runState).intensity = 1 ∧
    (gameOver runState).tempo = 60 := by
  obtain ⟨h1, h2, h3, h4⟩ := claimC7_amended
  obtain ⟨a1, a2⟩ := h1 (1/2) runState
  obtain ⟨b1, b2⟩ := h2 c2State c2Hoop
    ⟨rfl, rfl, rfl, rfl, by norm_num [c2State, c2Hoop, runState, initialState]⟩
  obtain ⟨d1, d2⟩ := h4 runState rfl
  refine ⟨?_, ?_, ?_, ?_, d1, d2⟩
  · rw [a1]; norm_num
  · rw [a2, a1]; norm_num
  · rw [b1]; norm_num [c2State, runState, initialState]
  · rw [b2]; norm_num [c2State, runState, initialState]

/-- Claim C8: when the spawner fires it appends exactly one hoop (plus at
most one obstacle) to the object list; the hoop's lateral position
`(rx−0.5)·80` ranges uniformly over `[−40,40)` (an order-preserving affine
bijection from the uniform draw) and its height `ry·30+5` over `[5,35)`;
the obstacle accompanies the hoop exactly when the draw is below
`min(0.2 + 0.05·score, 0.8)` — 0.2 at score 0, capped at 0.8 from score 12
on; and the obstacle type splits the unit interval 0.33/0.33/0.34 into
wall/fan/log. -/
theorem claimC8 :
    (∀ (r : Rnd) (pz : ℚ) (s : GameState),
      HOOP_SPAWN_INTERVAL ≤ s.lastSpawnZ - (pz - SPAWN_DISTANCE) →
      (r.rObs < obstacleChance s.score →
        (spawnObjects r pz s).objects = s.objects ++
          [spawnHoop ((r.rx - 1/2) * 80) (r.ry * 30 + 5) (pz - SPAWN_DISTANCE),
           spawnedObstacle r ((r.rx - 1/2) * 80) (r.ry * 30 + 5)
             (pz - SPAWN_DISTANCE)]) ∧
      (¬(r.rObs < obstacleChance s.score) →
        (spawnObjects r pz s).objects = s.objects ++
          [spawnHoop ((r.rx - 1/2) * 80) (r.ry * 30 + 5)
            (pz - SPAWN_DISTANCE)])) ∧
    (∀ x y z : ℚ, (spawnHoop x y z).type = ObjType.hoop) ∧
    (∀ (r : Rnd) (x y z : ℚ), (spawnedObstacle r x y z).type ≠ ObjType.hoop) ∧
    (∀ r : Rnd, 0 ≤ r.rx → r.rx < 1 →
      -40 ≤ (r.rx - 1/2) * 80 ∧ (r.rx - 1/2) * 80 < 40) ∧
    (∀ r : Rnd, 0 ≤ r.ry → r.ry < 1 → 5 ≤ r.ry * 30 + 5 ∧ r.ry * 30 + 5 < 35) ∧
    (∀ t : ℚ, -40 ≤ t → t < 40 → ∃ rv : ℚ, 0 ≤ rv ∧ rv < 1 ∧ (rv - 1/2) * 80 = t) ∧
    (∀ t : ℚ, 5 ≤ t → t < 35 → ∃ rv : ℚ, 0 ≤ rv ∧ rv < 1 ∧ rv * 30 + 5 = t) ∧
    (obstacleChance 0 = 1/5 ∧ obstacleChance 12 = 4/5 ∧
      obstacleChance 100 = 4/5 ∧ ∀ n : ℕ, obstacleChance n ≤ 4/5) ∧
    (∀ (r : Rnd) (x y z : ℚ), 0 ≤ r.rType → r.rType < 1 →
      ((spawnedObstacle r x y z).type = ObjType.wall ↔ r.rType < 33/100) ∧
      ((spawnedObstacle r x y z).type = ObjType.fan ↔
        33/100 ≤ r.rType ∧ r.rType < 66/100) ∧
      ((spawnedObstacle r x y z).type = ObjType.log ↔ 66/100 ≤ r.rType)) := by
  refine ⟨?_, fun x y z => rfl, ?_, ?_, ?_, ?_, ?_, ?_, ?_⟩
  · intro r pz s hf
    constructor
    · intro hobs
      simp only [spawnObjects]
      rw [if_pos hf]
      split
      · simp [List.append_assoc]
      · next hno => exact absurd hobs hno
    · intro hobs
      simp only [spawnObjects]
      rw [if_pos hf]
      split
      · next hyes => exact absurd hyes hobs
      · rfl
  · intro r x y z
    unfold spawnedObstacle
    repeat' split
    all_goals simp [spawnWall, spawnFan, spawnLog]
  · intro r h0 h1
    constructor <;> nlinarith
  · intro r h0 h1
    constructor <;> nlinarith
  · intro t h0 h1
    exact ⟨t/80 + 1/2, by linarith, by linarith, by ring⟩
  · intro t h0 h1
    exact ⟨(t - 5)/30, by linarith, by linarith, by ring⟩
  · refine ⟨by norm_num [obstacleChance], by norm_num [obstacleChance],
      by norm_num [obstacleChance], fun n => min_le_right _ _⟩
  · intro r x y z h0 h1
    by_cases c1 : r.rType < 33/100
    · unfold spawnedObstacle
      rw [if_pos c1]
      refine ⟨?_, ?_, ?_⟩
      · simp only [spawnWall]
        exact ⟨fun _ => c1, fun _ => by trivial⟩
      · constructor
        · intro h
          exact absurd h (by simp [spawnWall])
        · rintro ⟨hb, -⟩
          exact absurd c1 (not_lt.mpr hb)
      · constructor
        · intro h
          exact absurd h (by simp [spawnWall])
        · intro hb
          exact absurd c1 (not_lt.mpr (by linarith))
    · by_cases c2 : r.rType < 66/100
      · unfold spawnedObstacle
        rw [if_neg c1, if_pos c2]
        refine ⟨?_, ?_, ?_⟩
        · constructor
          · intro h
            exact absurd h (by simp [spawnFan])
          · intro hb
            exact absurd hb c1
        · exact ⟨fun _ => ⟨le_of_not_lt c1, c2⟩, fun _ => rfl⟩
        · constructor
          · intro h
            exact absurd h (by simp [spawnFan])
          · intro hb
            exact absurd c2 (not_lt.mpr hb)
      · unfold spawnedObstacle
        rw [if_neg c1, if_neg c2]
        refine ⟨?_, ?_, ?_⟩
        · constructor
          · intro h
            exact absurd h (by simp [spawnLog])
          · intro hb
            exact absurd hb c1
        · constructor
          · intro h
            exact absurd h (by simp [spawnLog])
          · rintro ⟨-, hb⟩
            exact absurd hb c2
        · exact ⟨fun _ => le_of_not_lt c2, fun _ => rfl⟩

/-- Claim C8 witness: one concrete firing of the spawner — hoop centered
(`rx = ry = 1/2`), obstacle roll 0 (below the score-0 chance of 0.2), type
roll 1/2 (a fan) — appends exactly the hoop and that fan. -/
theorem claimC8_witness :
    (spawnObjects rnd8 0 spawnDueState).objects =
      spawnDueState.objects ++
        [spawnHoop 0 20 (-400), spawnedObstacle rnd8 0 20 (-400)] ∧
    obstacleChance 0 = 1/5 ∧ obstacleChance 12 = 4/5 ∧
    obstacleChance 100 = 4/5 := by
  obtain ⟨h1, -, -, -, -, -, -, hc, -⟩ := claimC8
  obtain ⟨hc0, hc12, hc100, -⟩ := hc
  have hf : HOOP_SPAWN_INTERVAL ≤
      spawnDueState.lastSpawnZ - ((0:ℚ) - SPAWN_DISTANCE) := by
    norm_num [spawnDueState, runState, initialState, HOOP_SPAWN_INTERVAL,
      SPAWN_DISTANCE]
  have hobs : rnd8.rObs < obstacleChance spawnDueState.score := by
    norm_num [rnd8, spawnDueState, runState, initialState, obstacleChance]
  have h := (h1 rnd8 0 spawnDueState hf).1 hobs
  refine ⟨?_, hc0, hc12, hc100⟩
  rw [h]
  norm_num [rnd8, SPAWN_DISTANCE]

/-- Claim C10: a hoop resolves to at most one of passed/missed — the miss
check only fires for an active, not-passed, not-missed hoop and
deactivates it, and the pass check only fires for an active hoop and
deactivates it, so once either flag is set the other can never become set.
Stated as preservation of `HoopConsistent` (each flag forces inactivity
and the flags are mutually exclusive) by the miss step, the collision
step, a whole tick, and along every reachable state. -/
theorem claimC10 :
    (∀ (s : GameState) (o : Obj), HoopConsistent o →
      HoopConsistent (missStep s o).2) ∧
    (∀ (sq : ℚ → ℚ) (s : GameState) (o : Obj), HoopConsistent o →
      HoopConsistent (collideStep sq s o).2) ∧
    (∀ (sq sn : ℚ → ℚ) (inp : Input) (r : Rnd) (s : GameState), 0 ≤ r.rx →
      (∀ o ∈ s.objects, HoopConsistent o) →
      ∀ o1 ∈ (animate sq sn inp r s).objects, HoopConsistent o1) ∧
    (∀ s : GameState, Reachable s → ∀ o ∈ s.objects, HoopConsistent o) :=
  ⟨fun s o h => missStep_obj_hoopCons s o h,
   fun sq s o h => collideStep_obj_hoopCons sq s o h,
   fun sq sn inp r s hrx hq =>
     animate_objs sq sn inp r s HoopConsistent hrx missStep_obj_hoopCons
       (fun a o => collideStep_obj_hoopCons sq a o)
       (fun px o => behaviorStep_hoopCons sn px o) spawnHoop_hoopCons
       (fun x y z _ => spawnedObstacle_hoopCons r x y z) hq,
   fun _ h => reachable_hoopCons h⟩

/-- Claim C10 witness: a hoop missed by the concrete miss step and a hoop
passed by the concrete collision step are both left deactivated, as the
consistency invariant demands. -/
theorem claimC10_witness :
    (missStep runState c2Hoop).2.active = false ∧
    (collideStep sqZero runState c3HoopNear).2.active = false := by
  obtain ⟨h1, h2, -⟩ := claimC10
  constructor
  · refine (h1 runState c2Hoop (hoopConsistent_of_flags rfl rfl)).2.1 ?_
    norm_num [missStep, setIntensity, gameOver, createExplosion, runState,
      initialState, c2Hoop]
  · refine (h2 sqZero runState c3HoopNear (hoopConsistent_of_flags rfl rfl)).1 ?_
    norm_num [collideStep, runState, initialState, c3HoopNear, sqZero,
      HOOP_RADIUS, PLAYER_SPEED_MAX, PLAYER_SPEED_BASE, min_def, abs_lt,
      tyNe_hw, tyNe_hf, tyNe_hl]

/-- Claim C3 witness: the scoring law applied to the concrete centered hoop
at longitudinal offset 0.5, yielding the scored state and passed hoop. -/
theorem claimC3_witness :
    collideStep sqZero runState c3HoopNear =
      ({ runState with
          score := runState.score + 1
          collectSoundPlays := runState.collectSoundPlays + 1
          speed := min (runState.speed + 1) PLAYER_SPEED_MAX },
       { c3HoopNear with passed := true, active := false, color := 0x00FF00 }) := by
  obtain ⟨h1, -, -⟩ := claimC3
  exact (h1 sqZero runState c3HoopNear rfl rfl).1
    (by norm_num [c3HoopNear, runState, initialState, HOOP_RADIUS, abs_lt])
